import Mathlib

/-!
Verification of the per-frame gameplay simulation core of the WEB repository:
the player controller (src/docs/components/playerState.ts), the in-place
respawn creature engine (second component of src/unnamed/part_000) and the
replace-and-grow creature engine (first component of src/unnamed/part_000).
Numbers are modelled as real numbers; THREE.js vector operations are embedded
as plain functions on a record of three reals.
-/

noncomputable section

namespace DinoWeb

/-- Embedding of THREE.Vector3: a point or vector with three real fields. -/
structure Vec3 where
  x : ℝ
  y : ℝ
  z : ℝ

namespace Vec3

/-- The zero vector, `new THREE.Vector3()`. -/
def zero : Vec3 := ⟨0, 0, 0⟩

/-- THREE.Vector3.add, componentwise. -/
def add (a b : Vec3) : Vec3 := ⟨a.x + b.x, a.y + b.y, a.z + b.z⟩

/-- THREE.Vector3.sub: `a - b` componentwise. -/
def sub (a b : Vec3) : Vec3 := ⟨a.x - b.x, a.y - b.y, a.z - b.z⟩

/-- THREE.Vector3.multiplyScalar (written with the scalar first). -/
def smul (k : ℝ) (v : Vec3) : Vec3 := ⟨k * v.x, k * v.y, k * v.z⟩

/-- THREE.Vector3.setY. -/
def setY (v : Vec3) (c : ℝ) : Vec3 := ⟨v.x, c, v.z⟩

/-- THREE.Vector3.lengthSq. -/
def lengthSq (v : Vec3) : ℝ := v.x * v.x + v.y * v.y + v.z * v.z

/-- THREE.Vector3.length. -/
def length (v : Vec3) : ℝ := Real.sqrt v.lengthSq

/-- THREE.Vector3.distanceTo: the Euclidean distance from `a` to `b`. -/
def distanceTo (a b : Vec3) : ℝ := (sub b a).length

/-- THREE.Vector3.normalize: divide by the length.  (THREE divides by
`length() || 1`, which agrees with this on the zero vector since both give
the zero vector back.) -/
def normalize (v : Vec3) : Vec3 := smul (1 / v.length) v

/-- THREE.Vector3.lerp: `a + t * (b - a)` componentwise. -/
def lerp (a b : Vec3) (t : ℝ) : Vec3 := add a (smul t (sub b a))

/-- THREE.Vector3.addScaledVector: `a + s * v`. -/
def addScaledVector (a v : Vec3) (s : ℝ) : Vec3 := add a (smul s v)

end Vec3

/-- THREE.MathUtils.clamp: `Math.max(lo, Math.min(hi, value))`. -/
def clamp (value lo hi : ℝ) : ℝ := max lo (min hi value)

/-- THREE.MathUtils.lerp: `(1 - t) * x + t * y`. -/
def lerp1 (x y t : ℝ) : ℝ := (1 - t) * x + t * y

/-- Math.hypot on two arguments. -/
def hypot2 (a b : ℝ) : ℝ := Real.sqrt (a * a + b * b)

/-- The sum of the deltas of a list of frames (each frame a pair of clock
time and delta). -/
def sumDeltas (frames : List (ℝ × ℝ)) : ℝ := (frames.map Prod.snd).sum

/-- The shared fire-emission state `playerActionState` of
src/docs/components/playerState.ts: centers, radius and active flag,
written once per frame by the player controller. -/
structure FireState where
  fireCenters : List Vec3
  fireRadius : ℝ
  fireActive : Bool

namespace Player

/-! Player controller, from the `useFrame` body of the `Player` component in
src/docs/components/playerState.ts.  Presentation-only work (limb animation,
camera follow, mesh visibility) is omitted: it writes only to rendering
objects.  The mouth anchor and forward vector used for the fire targets are
computed in the source from the group's world matrix (which also carries the
cosmetic lean angles); they enter the embedding as inputs `mouth` and `fwd`. -/

/-- `FIRE_HIT_RADIUS` of playerState.ts. -/
def FIRE_HIT_RADIUS : ℝ := 2.4

/-- `FIRE_VISUAL_LENGTH` of playerState.ts. -/
def FIRE_VISUAL_LENGTH : ℝ := 6

/-- `FIRE_DROP_OFFSET` of playerState.ts. -/
def FIRE_DROP_OFFSET : Vec3 := ⟨0, -2, 0⟩

/-- `speed` of the Player component. -/
def speed : ℝ := 0.5

/-- `rotationSpeed` of the Player component. -/
def rotationSpeed : ℝ := 0.05

/-- `altarPos` of the Player component. -/
def altarPos : Vec3 := ⟨0, 8, -110⟩

/-- `monumentPos` of the Player component. -/
def monumentPos : Vec3 := ⟨-30, 8, -105⟩

/-- `debrisPos` of the Player component. -/
def debrisPos : Vec3 := ⟨30, 8, -105⟩

/-- `checkTrigger` of playerState.ts. -/
def checkTrigger (pos target : Vec3) (range : ℝ) : Prop :=
  Vec3.distanceTo pos target < range

instance (pos target : Vec3) (range : ℝ) : Decidable (checkTrigger pos target range) := by
  unfold checkTrigger
  infer_instance

/-- The stairs vertical-position logic of the Player `useFrame` (step 3):
`stairStartZ = -5`, `stairEndZ = -25`, `topY = 8`; inside the open band the
height is the linear interpolation, at or past the far edge it is `topY`,
otherwise `0`.  The source recomputes this from the position every frame. -/
def stairStartZ : ℝ := -5

/-- `stairEndZ` of the Player stairs logic. -/
def stairEndZ : ℝ := -25

/-- `topY` of the Player stairs logic. -/
def topY : ℝ := 8

/-- The player's height as the stateless function of horizontal depth `z`
that step 3 of the Player `useFrame` computes. -/
def stairsHeight (z : ℝ) : ℝ :=
  if z < stairStartZ ∧ z > stairEndZ then
    lerp1 0 topY ((z - stairStartZ) / (stairEndZ - stairStartZ))
  else if z ≤ stairEndZ then topY
  else 0

/-- The player state owned by the Player component: position, facing angle
(the group's `rotation.y`) and the smoothed fire intensity. -/
structure State where
  position : Vec3
  rotY : ℝ
  fireIntensity : ℝ

/-- What one player frame produces: the new player state, the published
fire-emission state, and the destination URLs passed to `onTrigger`. -/
structure FrameOut where
  player : State
  fire : FireState
  triggers : List String

/-- One frame of the Player `useFrame`.  `groupOk` models
`groupRef.current` being non-null; `isLocked` is the lock flag;
`moveForward`/`moveTurn` the aggregated input axes; `firing` the fire
intent `input.fire || fireButtonState.pressed`; `mouth`/`fwd` the mouth
anchor and forward vector read from the world transform; `prevFire` the
fire-emission state left from the previous frame (untouched on the
skipped frame). -/
def updateFrame (groupOk isLocked : Bool) (moveForward moveTurn : ℝ)
    (firing : Bool) (mouth fwd : Vec3) (prevFire : FireState)
    (st : State) : FrameOut :=
  if groupOk = false then ⟨st, prevFire, []⟩
  else if isLocked = true then ⟨st, ⟨[], FIRE_HIT_RADIUS, false⟩, []⟩
  else
    let rotY1 := st.rotY + moveTurn * rotationSpeed
    let moveDir : Vec3 := ⟨-Real.sin rotY1, 0, -Real.cos rotY1⟩
    let pos1 :=
      if moveForward ≠ 0 then
        let np := Vec3.addScaledVector st.position moveDir (moveForward * speed)
        let npx := if np.x > 35 then (35 : ℝ) else if np.x < -35 then -35 else np.x
        let npz := if np.z > 15 then (15 : ℝ) else if np.z < -125 then -125 else np.z
        (⟨npx, np.y, npz⟩ : Vec3)
      else st.position
    let pos2 := pos1.setY (stairsHeight pos1.z)
    let fi1 := lerp1 st.fireIntensity (if firing = true then 1 else 0)
      (if firing = true then 0.2 else 0.18)
    let fireTargets : List Vec3 :=
      [Vec3.addScaledVector mouth fwd 1.5,
       Vec3.addScaledVector mouth fwd 3,
       Vec3.addScaledVector mouth fwd FIRE_VISUAL_LENGTH,
       Vec3.add (Vec3.addScaledVector mouth fwd 2) FIRE_DROP_OFFSET]
    let fire1 : FireState := ⟨fireTargets, FIRE_HIT_RADIUS, decide (fi1 > 0.05)⟩
    let trigA : List String :=
      if checkTrigger pos2 altarPos 12 then ["https://www.zhenggdove.com/exhibition"] else []
    let trigB : List String :=
      if checkTrigger pos2 monumentPos 12 then ["https://www.zhenggdove.com/bio"] else []
    let trigC : List String :=
      if checkTrigger pos2 debrisPos 12 then ["https://www.zhenggdove.com/category/all-products"] else []
    ⟨⟨pos2, rotY1, fi1⟩, fire1, trigA ++ trigB ++ trigC⟩

end Player

namespace Resp

/-! The in-place respawn creature engine: the `Chickens` component that is the
second part of src/unnamed/part_000 (modes wander/chase/drumstick/respawn,
with `randomizeChicken` reusing the same record after `RESPAWN_DELAY`). -/

/-- The `ChickenMode` union of the respawn variant. -/
inductive Mode where
  | wander
  | chase
  | drumstick
  | respawn
deriving DecidableEq

/-- `CHICKEN_COUNT`. -/
def CHICKEN_COUNT : ℕ := 5

/-- `BASE_HEIGHT`. -/
def BASE_HEIGHT : ℝ := 8.5

/-- `AREA_X`. -/
def AREA_X : ℝ := 32

/-- `AREA_Z_MIN`. -/
def AREA_Z_MIN : ℝ := -90

/-- `AREA_Z_MAX`. -/
def AREA_Z_MAX : ℝ := -55

/-- `WANDER_SPEED`. -/
def WANDER_SPEED : ℝ := 1.2

/-- `CHASE_SPEED`. -/
def CHASE_SPEED : ℝ := 2.2

/-- `ALERT_RADIUS`. -/
def ALERT_RADIUS : ℝ := 14

/-- `HIT_RADIUS`. -/
def HIT_RADIUS : ℝ := 2.1

/-- `HOP_HEIGHT`. -/
def HOP_HEIGHT : ℝ := 0.65

/-- `HOP_SPEED`. -/
def HOP_SPEED : ℝ := 5.5

/-- `DRUMSTICK_DURATION`. -/
def DRUMSTICK_DURATION : ℝ := 5

/-- `FIRE_PADDING`. -/
def FIRE_PADDING : ℝ := 0.2

/-- `FIRE_VERTICAL_TOLERANCE`. -/
def FIRE_VERTICAL_TOLERANCE : ℝ := 6

/-- `DRUMSTICK_PICKUP_RADIUS`. -/
def DRUMSTICK_PICKUP_RADIUS : ℝ := 1.6

/-- `RESPAWN_DELAY`. -/
def RESPAWN_DELAY : ℝ := 3

/-- `FOOT_FIRE_HALF_X`. -/
def FOOT_FIRE_HALF_X : ℝ := 4

/-- `FOOT_FIRE_HALF_Z`. -/
def FOOT_FIRE_HALF_Z : ℝ := 4

/-- `FOOT_FIRE_HEIGHT`. -/
def FOOT_FIRE_HEIGHT : ℝ := 3

/-- The per-creature record `ChickenState` of the respawn variant. -/
structure Chicken where
  position : Vec3
  velocity : Vec3
  wanderDir : ℝ
  wanderTimer : ℝ
  hopOffset : ℝ
  mode : Mode
  alert : Bool
  drumstickTimer : ℝ
  drumstickOpacity : ℝ
  lastPlayerHit : ℝ
  respawnTimer : ℝ

/-- The uniform `Math.random()` draws one frame of one creature can consume:
the `randomizeChicken` reinitialisation (seed index and four unit draws) and
the wander-timer re-roll (two unit draws). -/
structure Draws where
  seed : Fin 5
  rx : ℝ
  rz : ℝ
  rdir : ℝ
  rtimer : ℝ
  rhop : ℝ
  wtimer : ℝ
  wdir : ℝ

/-- The `startXs` array `[-12, -6, 0, 6, 12]` used by `createInitialChickens`
and `randomizeChicken`. -/
def startXsList : List ℝ := [-12, -6, 0, 6, 12]

/-- `startXs[i]` for an index known to be below 5. -/
def startXs (i : Fin 5) : ℝ := startXsList.getD i.val 0

/-- `randomizeChicken` of the respawn variant (startZ = -75). -/
def randomizeChicken (r : Draws) (c : Chicken) : Chicken :=
  { c with
    position := ⟨startXs r.seed + (r.rx - 0.5) * 1.5, BASE_HEIGHT, -75 + (r.rz - 0.5) * 4⟩
    velocity := Vec3.zero
    wanderDir := r.rdir * (2 * Real.pi)
    wanderTimer := 1.5 + r.rtimer * 1.5
    hopOffset := r.rhop * (2 * Real.pi)
    mode := Mode.wander
    alert := false
    drumstickTimer := 0
    drumstickOpacity := 1
    respawnTimer := 0
    lastPlayerHit := -10 }

/-- The five assignments the source performs at both capture sites
(foot-fire box and fire-center proximity): mode drumstick, timers reset,
opacity 1, velocity zeroed, height snapped to the base. -/
def capture (c : Chicken) : Chicken :=
  { c with
    mode := Mode.drumstick
    drumstickTimer := 0
    drumstickOpacity := 1
    velocity := Vec3.zero
    position := c.position.setY BASE_HEIGHT }

/-- The foot-level fire AoE test: the axis-aligned box under the player
(`dx <= FOOT_FIRE_HALF_X && dz <= FOOT_FIRE_HALF_Z && dy <= FOOT_FIRE_HEIGHT`). -/
def footFireHit (playerPos pos : Vec3) : Prop :=
  |pos.x - playerPos.x| ≤ FOOT_FIRE_HALF_X ∧ |pos.z - playerPos.z| ≤ FOOT_FIRE_HALF_Z ∧
    |pos.y - playerPos.y| ≤ FOOT_FIRE_HEIGHT

instance (playerPos pos : Vec3) : Decidable (footFireHit playerPos pos) := by
  unfold footFireHit
  infer_instance

/-- The fire-center proximity test of the respawn variant: some published
center within the vertical tolerance whose flat distance is below
`fireRadius + FIRE_PADDING`.  The source loop breaks at the first such
center; every hit produces the same captured state, so existence is the
exact observable condition. -/
def fireCenterHit (fire : FireState) (pos : Vec3) : Prop :=
  ∃ c ∈ fire.fireCenters,
    |c.y - pos.y| ≤ FIRE_VERTICAL_TOLERANCE ∧
      hypot2 (c.x - pos.x) (c.z - pos.z) < fire.fireRadius + FIRE_PADDING

instance (fire : FireState) (pos : Vec3) : Decidable (fireCenterHit fire pos) := by
  unfold fireCenterHit
  infer_instance

/-- What one frame of one creature reports: the new record, whether
`onPlayerHit` fired and whether `onDrumstickCollected` fired. -/
structure StepResult where
  chicken : Chicken
  hitPlayer : Bool
  collectedNow : Bool

/-- The wander/chase movement block of the respawn variant (alert selection,
wander-timer re-roll, velocity smoothing, integration, clamps, hop, and the
cooldown-guarded player-hit check); returns the moved creature and whether
`onPlayerHit` fired. -/
def moveChicken (r : Draws) (time delta : ℝ) (playerPos : Vec3) (c : Chicken) :
    Chicken × Bool :=
  let distToPlayer := Vec3.distanceTo c.position playerPos
  let alert : Bool := decide (distToPlayer < ALERT_RADIUS)
  let mode1 := if alert = true then Mode.chase else Mode.wander
  let wanderTimer1 :=
    if c.wanderTimer - delta ≤ 0 then 1.5 + r.wtimer * 2.5 else c.wanderTimer - delta
  let wanderDir1 :=
    if c.wanderTimer - delta ≤ 0 then r.wdir * (2 * Real.pi) else c.wanderDir
  let dirRaw :=
    (if alert = true then Vec3.sub playerPos c.position
     else ⟨Real.sin wanderDir1, 0, Real.cos wanderDir1⟩ : Vec3).setY 0
  let dir := if dirRaw.lengthSq > 0.0001 then dirRaw.normalize else dirRaw
  let spd := if alert = true then CHASE_SPEED else WANDER_SPEED
  let targetVel := Vec3.smul spd dir
  let vel1 := Vec3.lerp c.velocity targetVel 0.12
  let posMoved := Vec3.addScaledVector c.position vel1 delta
  let posClamped : Vec3 :=
    ⟨clamp posMoved.x (-AREA_X) AREA_X, posMoved.y, clamp posMoved.z AREA_Z_MIN AREA_Z_MAX⟩
  let hop := Real.sin (time * HOP_SPEED + c.hopOffset) * HOP_HEIGHT
  let pos2 := posClamped.setY (BASE_HEIGHT + hop)
  let hit : Bool := decide (distToPlayer < HIT_RADIUS ∧ time - c.lastPlayerHit > 0.3)
  ({ position := pos2, velocity := vel1, wanderDir := wanderDir1,
     wanderTimer := wanderTimer1, hopOffset := c.hopOffset, mode := mode1,
     alert := alert, drumstickTimer := c.drumstickTimer,
     drumstickOpacity := c.drumstickOpacity,
     lastPlayerHit := if hit = true then time else c.lastPlayerHit,
     respawnTimer := c.respawnTimer }, hit)

/-- The respawn branch of the per-creature update: accumulate the timer and
reinitialise after `RESPAWN_DELAY`. -/
def respawnStep (r : Draws) (delta : ℝ) (c : Chicken) : StepResult :=
  if c.respawnTimer + delta ≥ RESPAWN_DELAY then
    ⟨randomizeChicken r { c with respawnTimer := c.respawnTimer + delta }, false, false⟩
  else ⟨{ c with respawnTimer := c.respawnTimer + delta }, false, false⟩

/-- The drumstick branch of the per-creature update: fade, freeze, pickup
within `DRUMSTICK_PICKUP_RADIUS` (emitting `onDrumstickCollected`), and the
fade-out transition to respawn. -/
def drumstickStep (delta : ℝ) (playerPos : Vec3) (c : Chicken) : StepResult :=
  let t := c.drumstickTimer + delta
  let c1 : Chicken :=
    { c with
      drumstickTimer := t
      drumstickOpacity := max 0 (1 - t / DRUMSTICK_DURATION)
      alert := false
      velocity := Vec3.zero
      position := c.position.setY BASE_HEIGHT }
  if Vec3.distanceTo c1.position playerPos < DRUMSTICK_PICKUP_RADIUS then
    ⟨{ c1 with mode := Mode.respawn, drumstickOpacity := 0, respawnTimer := 0 }, false, true⟩
  else if c1.drumstickOpacity ≤ 0.01 then
    ⟨{ c1 with mode := Mode.respawn, respawnTimer := 0 }, false, false⟩
  else ⟨c1, false, false⟩

/-- The fire-center loop run after the movement block: capture the moved
creature if some published center hits its (post-move) position. -/
def fireCenterStep (fire : FireState) (moved : Chicken × Bool) : StepResult :=
  if fire.fireActive = true ∧ fireCenterHit fire moved.1.position then
    ⟨capture moved.1, moved.2, false⟩
  else ⟨moved.1, moved.2, false⟩

/-- The live (wander/chase) part of the per-creature update: the foot-fire
AoE box first (early return), then movement, then the fire-center loop on the
moved position. -/
def liveStep (r : Draws) (time delta : ℝ) (playerPos : Vec3) (fire : FireState)
    (c : Chicken) : StepResult :=
  if fire.fireActive = true ∧ footFireHit playerPos c.position then
    ⟨capture c, false, false⟩
  else fireCenterStep fire (moveChicken r time delta playerPos c)

/-- One frame of one creature of the respawn variant: the `forEach` body of
its `useFrame` (respawn branch, drumstick branch, else the live logic). -/
def updateChicken (r : Draws) (time delta : ℝ) (playerPos : Vec3)
    (fire : FireState) (c : Chicken) : StepResult :=
  if c.mode = Mode.respawn then respawnStep r delta c
  else if c.mode = Mode.drumstick then drumstickStep delta playerPos c
  else liveStep r time delta playerPos fire c

/-- One frame of the whole respawn-variant engine: skipped entirely when the
player group cannot be found, otherwise every creature is stepped in place. -/
def frameChickens (rs : ℕ → Draws) (time delta : ℝ) (player : Option Vec3)
    (fire : FireState) (cs : List Chicken) : List Chicken :=
  match player with
  | none => cs
  | some p => cs.mapIdx fun i c => (updateChicken (rs i) time delta p fire c).chicken

/-- The unit draws `createInitialChickens` consumes for one creature. -/
structure InitDraws where
  px : ℝ
  pz : ℝ
  rdir : ℝ
  rtimer : ℝ
  rhop : ℝ

/-- `createInitialChickens` of the respawn variant (startZ = -75). -/
def createInitialChickens (rs : ℕ → InitDraws) : List Chicken :=
  (List.range CHICKEN_COUNT).map fun i =>
    { position := ⟨startXsList.getD (i % 5) 0 + ((rs i).px - 0.5) * 1.5, BASE_HEIGHT,
        -75 + ((rs i).pz - 0.5) * 4⟩
      velocity := Vec3.zero
      wanderDir := (rs i).rdir * (2 * Real.pi)
      wanderTimer := 1.5 + (rs i).rtimer * 1.5
      hopOffset := (rs i).rhop * (2 * Real.pi)
      mode := Mode.wander
      alert := false
      drumstickTimer := 0
      drumstickOpacity := 1
      lastPlayerHit := -10
      respawnTimer := 0 }

/-- Iterating the per-creature update over a list of frames, each frame a
pair (clock time, delta). -/
def runChicken (r : Draws) (playerPos : Vec3) (fire : FireState) :
    List (ℝ × ℝ) → Chicken → Chicken
  | [], c => c
  | f :: rest, c =>
    runChicken r playerPos fire rest (updateChicken r f.1 f.2 playerPos fire c).chicken

/-- The clock times of the frames at which a run of the per-creature update
emits `onPlayerHit`. -/
def chickenHitTimes (r : Draws) (playerPos : Vec3) (fire : FireState) :
    List (ℝ × ℝ) → Chicken → List ℝ
  | [], _ => []
  | f :: rest, c =>
    let s := updateChicken r f.1 f.2 playerPos fire c
    (if s.hitPlayer = true then [f.1] else []) ++
      chickenHitTimes r playerPos fire rest s.chicken

/-- Iterating the whole respawn-variant engine over a list of frames. -/
def runFrames (rs : ℕ → Draws) (player : Option Vec3) (fire : FireState) :
    List (ℝ × ℝ) → List Chicken → List Chicken
  | [], cs => cs
  | f :: rest, cs => runFrames rs player fire rest (frameChickens rs f.1 f.2 player fire cs)

/-- The creature never sits in the respawn state at the start of any frame of
the run (so `randomizeChicken`, which resets the hit timestamp, never runs). -/
def neverRespawning (r : Draws) (playerPos : Vec3) (fire : FireState) :
    List (ℝ × ℝ) → Chicken → Prop
  | [], _ => True
  | f :: rest, c =>
    c.mode ≠ Mode.respawn ∧
      neverRespawning r playerPos fire rest (updateChicken r f.1 f.2 playerPos fire c).chicken

end Resp

namespace Grow

/-! The replace-and-grow creature engine: the `Chickens` component that is the
first part of src/unnamed/part_000 (modes wander/chase/drumstick, a
`collected` flag, and a respawn timer that appends a brand-new chick whenever
the live count drops below `CHICKEN_COUNT`). -/

/-- The `Mode` union of the replace-and-grow variant. -/
inductive Mode where
  | wander
  | chase
  | drumstick
deriving DecidableEq

/-- `CHICKEN_COUNT`. -/
def CHICKEN_COUNT : ℕ := 5

/-- `BASE_HEIGHT`. -/
def BASE_HEIGHT : ℝ := 8.5

/-- `AREA_X`. -/
def AREA_X : ℝ := 30

/-- `AREA_Z_MIN`. -/
def AREA_Z_MIN : ℝ := -90

/-- `AREA_Z_MAX`. -/
def AREA_Z_MAX : ℝ := -55

/-- `WANDER_SPEED`. -/
def WANDER_SPEED : ℝ := 2.0

/-- `CHASE_SPEED`. -/
def CHASE_SPEED : ℝ := 4.0

/-- `ALERT_RADIUS`. -/
def ALERT_RADIUS : ℝ := 16

/-- `HIT_RADIUS`. -/
def HIT_RADIUS : ℝ := 2.5

/-- `HOP_HEIGHT`. -/
def HOP_HEIGHT : ℝ := 0.7

/-- `HOP_SPEED`. -/
def HOP_SPEED : ℝ := 5.0

/-- `DRUMSTICK_DURATION`. -/
def DRUMSTICK_DURATION : ℝ := 8

/-- `FIRE_RECT_RANGE`. -/
def FIRE_RECT_RANGE : ℝ := 8

/-- `RESPAWN_DELAY`. -/
def RESPAWN_DELAY : ℝ := 3

/-- `HEART_BASE_HEIGHT`. -/
def HEART_BASE_HEIGHT : ℝ := 6

/-- `HEART_GAP`. -/
def HEART_GAP : ℝ := 0.8

/-- The per-creature record `Chick` of the replace-and-grow variant. -/
structure Chick where
  pos : Vec3
  vel : Vec3
  dir : ℝ
  timer : ℝ
  hopOff : ℝ
  mode : Mode
  alert : Bool
  drumTime : ℝ
  opacity : ℝ
  collected : Bool

/-- The uniform `Math.random()` draws one chick creation or one chick frame
can consume: position/heading/timer/hop draws for a fresh chick and the
wander re-roll draws. -/
structure Draws where
  px : ℝ
  pz : ℝ
  pdir : ℝ
  ptimer : ℝ
  phop : ℝ
  wt : ℝ
  wd : ℝ

/-- A fresh chick, as built both by `createInitialChicks` and by the
replenish push. -/
def newChick (r : Draws) : Chick :=
  { pos := ⟨(r.px - 0.5) * AREA_X * 1.6, BASE_HEIGHT, lerp1 AREA_Z_MIN AREA_Z_MAX r.pz⟩
    vel := Vec3.zero
    dir := r.pdir * (2 * Real.pi)
    timer := 1 + r.ptimer * 1.5
    hopOff := r.phop * (2 * Real.pi)
    mode := Mode.wander
    alert := false
    drumTime := 0
    opacity := 1
    collected := false }

/-- `createInitialChicks`. -/
def createInitialChicks (rs : ℕ → Draws) : List Chick :=
  (List.range CHICKEN_COUNT).map fun i => newChick (rs i)

/-- The fire-center proximity test of the replace-and-grow variant: full 3D
distance below the published radius, no padding and no vertical tolerance.
The source loop breaks at the first such center; every hit produces the same
state, so existence is the exact observable condition. -/
def fireCenterHit (fire : FireState) (pos : Vec3) : Prop :=
  ∃ c ∈ fire.fireCenters, Vec3.distanceTo pos c < fire.fireRadius

instance (fire : FireState) (pos : Vec3) : Decidable (fireCenterHit fire pos) := by
  unfold fireCenterHit
  infer_instance

/-- What one frame of one chick reports: the new record, whether
`onPlayerHit` fired and whether the drumstick was collected this frame. -/
structure StepOut where
  chick : Chick
  hitPlayer : Bool
  collectedNow : Bool

/-- One frame of one chick of the replace-and-grow variant: the `forEach`
body (drumstick fade or live movement with the uncooldowned hit check and
the fire tests, then the drumstick-pickup check). -/
def stepChick (r : Draws) (time delta : ℝ) (playerPos : Vec3) (fire : FireState)
    (c : Chick) : StepOut :=
  let s1 : Chick × Bool :=
    if c.mode = Mode.drumstick then
      (if c.collected = false then
        ({ c with
            drumTime := c.drumTime + delta
            opacity := max 0 (1 - (c.drumTime + delta) / DRUMSTICK_DURATION)
            vel := Vec3.zero }, false)
      else ({ c with vel := Vec3.zero }, false))
    else
      let dist := Vec3.distanceTo playerPos c.pos
      let alert : Bool := decide (dist < ALERT_RADIUS)
      let mode1 := if alert = true then Mode.chase else Mode.wander
      let timer1 := if c.timer - delta ≤ 0 then 1 + r.wt * 2 else c.timer - delta
      let dir1 := if c.timer - delta ≤ 0 then r.wd * (2 * Real.pi) else c.dir
      let dirVec : Vec3 :=
        if alert = true then (Vec3.sub playerPos c.pos).setY 0
        else ⟨Real.sin dir1, 0, Real.cos dir1⟩
      let dirN := if dirVec.lengthSq > 0.0001 then dirVec.normalize else dirVec
      let spd := if alert = true then CHASE_SPEED else WANDER_SPEED
      let vel1 := Vec3.lerp c.vel (Vec3.smul spd dirN) 0.12
      let posMoved := Vec3.addScaledVector c.pos vel1 delta
      let pos1 : Vec3 :=
        ⟨clamp posMoved.x (-AREA_X) AREA_X,
         BASE_HEIGHT + Real.sin (time * HOP_SPEED + c.hopOff) * HOP_HEIGHT,
         clamp posMoved.z AREA_Z_MIN AREA_Z_MAX⟩
      let hit : Bool := decide (dist < HIT_RADIUS)
      let c1 : Chick :=
        { pos := pos1, vel := vel1, dir := dir1, timer := timer1, hopOff := c.hopOff,
          mode := mode1, alert := alert, drumTime := c.drumTime, opacity := c.opacity,
          collected := c.collected }
      let c2 :=
        if fire.fireActive = true then
          if |c1.pos.x - playerPos.x| < FIRE_RECT_RANGE ∧
              |c1.pos.z - playerPos.z| < FIRE_RECT_RANGE then
            { c1 with mode := Mode.drumstick, drumTime := 0, opacity := 1 }
          else if fireCenterHit fire c1.pos then
            { c1 with mode := Mode.drumstick, drumTime := 0, opacity := 1 }
          else c1
        else c1
      (c2, hit)
  let c3 := s1.1
  if c3.mode = Mode.drumstick ∧ c3.collected = false ∧
      Vec3.distanceTo playerPos c3.pos < HIT_RADIUS then
    ⟨{ c3 with collected := true }, s1.2, true⟩
  else ⟨c3, s1.2, false⟩

/-- The whole state the replace-and-grow engine owns: the chick roster, the
replenish timer, the heart stack, and the last player position read (kept,
and reused, when the player group is missing). -/
structure EngineState where
  chicks : List Chick
  respawnTimer : ℝ
  heartCount : ℕ
  heartHeights : List ℝ
  playerPos : Vec3

/-- What one engine frame reports: the new state and whether `onPlayerHit`
fired for some chick. -/
structure EngineOut where
  state : EngineState
  anyHit : Bool

/-- The live count of the replenish logic: chicks that are not collected
drumsticks (`c.mode !== 'drumstick' || !c.collected`). -/
def liveCount (cs : List Chick) : ℕ :=
  (cs.filter fun c => decide (¬(c.mode = Mode.drumstick ∧ c.collected = true))).length

/-- The chicks that are not captured (not in drumstick mode) at all. -/
def nonCapturedCount (cs : List Chick) : ℕ :=
  (cs.filter fun c => decide (¬(c.mode = Mode.drumstick))).length

/-- One frame of the replace-and-grow engine: read the player position if the
group exists (else keep the stale one and continue), run the replenish
logic (accumulate the timer while the live count is low, append a fresh
chick when it reaches `RESPAWN_DELAY`, reset it otherwise), then step every
chick — including a chick pushed this frame — and fold the collect events
into the heart stack. -/
def frameEngine (rs : ℕ → Draws) (rNew : Draws) (time delta : ℝ)
    (player : Option Vec3) (fire : FireState) (st : EngineState) : EngineOut :=
  let ppos := match player with
    | some q => q
    | none => st.playerPos
  let live := liveCount st.chicks
  let timer1 : ℝ :=
    if live < CHICKEN_COUNT then
      (if st.respawnTimer + delta ≥ RESPAWN_DELAY then 0 else st.respawnTimer + delta)
    else 0
  let pushed : List Chick :=
    if live < CHICKEN_COUNT ∧ st.respawnTimer + delta ≥ RESPAWN_DELAY then [newChick rNew]
    else []
  let arr := st.chicks ++ pushed
  let stepped := arr.mapIdx fun i c => stepChick (rs i) time delta ppos fire c
  let collectedCount := stepped.countP fun s => s.collectedNow
  { state :=
      { chicks := stepped.map fun s => s.chick
        respawnTimer := timer1
        heartCount := st.heartCount + collectedCount
        heartHeights := st.heartHeights ++ ((List.range collectedCount).map fun k =>
          HEART_BASE_HEIGHT + HEART_GAP * ((st.heartCount : ℝ) + (k : ℝ)))
        playerPos := ppos }
    anyHit := stepped.any fun s => s.hitPlayer }

/-- Iterating the engine over a list of frames, each a pair
(clock time, delta). -/
def runEngine (rs : ℕ → Draws) (rNew : Draws) (player : Option Vec3)
    (fire : FireState) : List (ℝ × ℝ) → EngineState → EngineState
  | [], st => st
  | f :: rest, st =>
    runEngine rs rNew player fire rest (frameEngine rs rNew f.1 f.2 player fire st).state

end Grow

/-! Helper lemmas shared by the claim theorems. -/

theorem sqrt_eval {c d : ℝ} (hc : 0 ≤ c) (h : c * c = d) : Real.sqrt d = c := by
  rw [← h]
  exact Real.sqrt_mul_self hc

theorem distanceTo_expand (a b : Vec3) :
    Vec3.distanceTo a b =
      Real.sqrt ((b.x - a.x) * (b.x - a.x) + (b.y - a.y) * (b.y - a.y) +
        (b.z - a.z) * (b.z - a.z)) := by
  simp [Vec3.distanceTo, Vec3.length, Vec3.lengthSq, Vec3.sub]

theorem distanceTo_eval (a b : Vec3) (c : ℝ) (hc : 0 ≤ c)
    (h : c * c = (b.x - a.x) * (b.x - a.x) + (b.y - a.y) * (b.y - a.y) +
      (b.z - a.z) * (b.z - a.z)) : Vec3.distanceTo a b = c := by
  rw [distanceTo_expand]
  exact sqrt_eval hc h

theorem Vec3.distanceTo_self (v : Vec3) : Vec3.distanceTo v v = 0 := by
  rw [distanceTo_expand]
  simp

theorem length_eval (v : Vec3) (c : ℝ) (hc : 0 ≤ c)
    (h : c * c = v.x * v.x + v.y * v.y + v.z * v.z) : Vec3.length v = c := by
  unfold Vec3.length Vec3.lengthSq
  exact sqrt_eval hc (by linarith)

theorem lo_le_clamp {v lo hi : ℝ} : lo ≤ clamp v lo hi := le_max_left _ _

theorem clamp_le_hi {v lo hi : ℝ} (h : lo ≤ hi) : clamp v lo hi ≤ hi :=
  max_le h (min_le_left _ _)

theorem abs_clamp_le {v hi : ℝ} (h : 0 ≤ hi) : |clamp v (-hi) hi| ≤ hi :=
  abs_le.2 ⟨lo_le_clamp, clamp_le_hi (by linarith)⟩

theorem clamp_eq_self {v lo hi : ℝ} (h1 : lo ≤ v) (h2 : v ≤ hi) : clamp v lo hi = v := by
  unfold clamp
  rw [min_eq_right h2, max_eq_right h1]

/-! Branch equations for the respawn-variant per-creature update. -/

theorem Resp.updateChicken_respawn (r : Resp.Draws) (time delta : ℝ) (p : Vec3)
    (fire : FireState) (c : Resp.Chicken) (h : c.mode = Resp.Mode.respawn) :
    Resp.updateChicken r time delta p fire c = Resp.respawnStep r delta c := by
  simp [Resp.updateChicken, h]

theorem Resp.updateChicken_drumstick (r : Resp.Draws) (time delta : ℝ) (p : Vec3)
    (fire : FireState) (c : Resp.Chicken) (h : c.mode = Resp.Mode.drumstick) :
    Resp.updateChicken r time delta p fire c = Resp.drumstickStep delta p c := by
  simp [Resp.updateChicken, h]

theorem Resp.updateChicken_live (r : Resp.Draws) (time delta : ℝ) (p : Vec3)
    (fire : FireState) (c : Resp.Chicken) (h1 : c.mode ≠ Resp.Mode.respawn)
    (h2 : c.mode ≠ Resp.Mode.drumstick) :
    Resp.updateChicken r time delta p fire c = Resp.liveStep r time delta p fire c := by
  simp [Resp.updateChicken, h1, h2]

theorem Resp.startXs_abs_le (i : Fin 5) : |Resp.startXs i| ≤ 12 := by
  fin_cases i <;> norm_num [Resp.startXs, Resp.startXsList, List.getD]

theorem Resp.moveChicken_facts (r : Resp.Draws) (time delta : ℝ) (p : Vec3)
    (c : Resp.Chicken) :
    |(Resp.moveChicken r time delta p c).1.position.x| ≤ Resp.AREA_X ∧
    Resp.AREA_Z_MIN ≤ (Resp.moveChicken r time delta p c).1.position.z ∧
    (Resp.moveChicken r time delta p c).1.position.z ≤ Resp.AREA_Z_MAX ∧
    ((Resp.moveChicken r time delta p c).1.mode = Resp.Mode.wander ∨
      (Resp.moveChicken r time delta p c).1.mode = Resp.Mode.chase) ∧
    (Resp.moveChicken r time delta p c).1.mode ≠ Resp.Mode.drumstick ∧
    (Resp.moveChicken r time delta p c).1.mode ≠ Resp.Mode.respawn := by
  unfold Resp.moveChicken
  simp only [Vec3.setY]
  refine ⟨?_, ?_, ?_, ?_, ?_, ?_⟩
  · exact abs_clamp_le (by norm_num [Resp.AREA_X])
  · exact lo_le_clamp
  · exact clamp_le_hi (by norm_num [Resp.AREA_Z_MIN, Resp.AREA_Z_MAX])
  · cases decide (Vec3.distanceTo c.position p < Resp.ALERT_RADIUS) <;> simp
  · cases decide (Vec3.distanceTo c.position p < Resp.ALERT_RADIUS) <;> simp
  · cases decide (Vec3.distanceTo c.position p < Resp.ALERT_RADIUS) <;> simp

theorem Resp.mode_exclusive (m : Resp.Mode) :
    ((if m = Resp.Mode.wander then 1 else 0) + (if m = Resp.Mode.chase then 1 else 0) +
      (if m = Resp.Mode.drumstick then 1 else 0) +
      (if m = Resp.Mode.respawn then 1 else 0) : ℕ) = 1 := by
  cases m <;> simp

theorem Resp.runChicken_append (r : Resp.Draws) (p : Vec3) (fire : FireState)
    (a b : List (ℝ × ℝ)) (c : Resp.Chicken) :
    Resp.runChicken r p fire (a ++ b) c =
      Resp.runChicken r p fire b (Resp.runChicken r p fire a c) := by
  induction a generalizing c with
  | nil => rfl
  | cons f rest ih => simp [Resp.runChicken, ih]

theorem sumDeltas_cons (f : ℝ × ℝ) (rest : List (ℝ × ℝ)) :
    sumDeltas (f :: rest) = f.2 + sumDeltas rest := by
  simp [sumDeltas]

theorem sumDeltas_nonneg (frames : List (ℝ × ℝ)) (hd : ∀ f ∈ frames, 0 ≤ f.2) :
    0 ≤ sumDeltas frames := by
  induction frames with
  | nil => simp [sumDeltas]
  | cons f rest ih =>
    rw [sumDeltas_cons]
    have h1 : 0 ≤ f.2 := hd f (by simp)
    have h2 : 0 ≤ sumDeltas rest := ih fun g hg => hd g (by simp [hg])
    linarith

theorem Resp.respawn_accumulate (r : Resp.Draws) (p : Vec3) (fire : FireState)
    (frames : List (ℝ × ℝ)) :
    ∀ c : Resp.Chicken, c.mode = Resp.Mode.respawn →
      (∀ f ∈ frames, 0 ≤ f.2) →
      c.respawnTimer + sumDeltas frames < Resp.RESPAWN_DELAY →
      Resp.runChicken r p fire frames c =
        { c with respawnTimer := c.respawnTimer + sumDeltas frames } := by
  induction frames with
  | nil =>
    intro c h1 _ _
    cases c
    simp [Resp.runChicken, sumDeltas]
  | cons f rest ih =>
    intro c h1 hd h2
    have hrest : 0 ≤ sumDeltas rest :=
      sumDeltas_nonneg rest fun g hg => hd g (by simp [hg])
    have hf : 0 ≤ f.2 := hd f (by simp)
    rw [sumDeltas_cons] at h2
    have hlt : c.respawnTimer + f.2 < Resp.RESPAWN_DELAY := by linarith
    have hstep : Resp.updateChicken r f.1 f.2 p fire c = Resp.respawnStep r f.2 c :=
      Resp.updateChicken_respawn r f.1 f.2 p fire c h1
    have hbranch : Resp.respawnStep r f.2 c =
        ⟨{ c with respawnTimer := c.respawnTimer + f.2 }, false, false⟩ := by
      simp only [Resp.respawnStep]
      rw [if_neg (not_le.2 hlt)]
    rw [show Resp.runChicken r p fire (f :: rest) c =
        Resp.runChicken r p fire rest (Resp.updateChicken r f.1 f.2 p fire c).chicken from rfl,
      hstep, hbranch]
    rw [ih { c with respawnTimer := c.respawnTimer + f.2 } (by simp [h1])
      (fun g hg => hd g (by simp [hg])) (by simp; linarith)]
    cases c
    simp [sumDeltas_cons]
    ring

theorem Vec3.smul_smul (a b : ℝ) (v : Vec3) :
    Vec3.smul a (Vec3.smul b v) = Vec3.smul (a * b) v := by
  cases v
  simp [Vec3.smul, mul_assoc]

theorem Vec3.length_pos_of_lengthSq {v : Vec3} (h : v.lengthSq > 0.0001) :
    0 < v.length :=
  Real.sqrt_pos.2 (by unfold Vec3.lengthSq at h ⊢; linarith)

theorem Resp.moveChicken_alert_field (r : Resp.Draws) (time delta : ℝ) (p : Vec3)
    (c : Resp.Chicken) :
    (Resp.moveChicken r time delta p c).1.alert =
      decide (Vec3.distanceTo c.position p < Resp.ALERT_RADIUS) := rfl

theorem Resp.moveChicken_mode_field (r : Resp.Draws) (time delta : ℝ) (p : Vec3)
    (c : Resp.Chicken) :
    (Resp.moveChicken r time delta p c).1.mode =
      (if decide (Vec3.distanceTo c.position p < Resp.ALERT_RADIUS) = true
        then Resp.Mode.chase else Resp.Mode.wander) := rfl

theorem Resp.moveChicken_alert_velocity (r : Resp.Draws) (time delta : ℝ) (p : Vec3)
    (c : Resp.Chicken)
    (halert : Vec3.distanceTo c.position p < Resp.ALERT_RADIUS)
    (hlen : ((Vec3.sub p c.position).setY 0).lengthSq > 0.0001) :
    (Resp.moveChicken r time delta p c).1.velocity =
      Vec3.lerp c.velocity
        (Vec3.smul Resp.CHASE_SPEED ((Vec3.sub p c.position).setY 0).normalize) 0.12 := by
  have ha : decide (Vec3.distanceTo c.position p < Resp.ALERT_RADIUS) = true :=
    decide_eq_true halert
  simp only [Resp.moveChicken, ha, if_true, hlen, if_pos]

theorem Resp.updateChicken_nofire (r : Resp.Draws) (time delta : ℝ) (p : Vec3)
    (fire : FireState) (c : Resp.Chicken)
    (h1 : c.mode ≠ Resp.Mode.drumstick) (h2 : c.mode ≠ Resp.Mode.respawn)
    (hfoot : ¬(fire.fireActive = true ∧ Resp.footFireHit p c.position))
    (hcen : ¬(fire.fireActive = true ∧
      Resp.fireCenterHit fire (Resp.moveChicken r time delta p c).1.position)) :
    Resp.updateChicken r time delta p fire c =
      ⟨(Resp.moveChicken r time delta p c).1,
        (Resp.moveChicken r time delta p c).2, false⟩ := by
  rw [Resp.updateChicken_live r time delta p fire c h2 h1]
  simp only [Resp.liveStep]
  rw [if_neg hfoot]
  simp only [Resp.fireCenterStep]
  rw [if_neg hcen]

theorem Resp.moveChicken_hit_iff (r : Resp.Draws) (time delta : ℝ) (p : Vec3)
    (c : Resp.Chicken) :
    (Resp.moveChicken r time delta p c).2 =
      decide (Vec3.distanceTo c.position p < Resp.HIT_RADIUS ∧
        time - c.lastPlayerHit > 0.3) := rfl

theorem Resp.moveChicken_lastHit (r : Resp.Draws) (time delta : ℝ) (p : Vec3)
    (c : Resp.Chicken) :
    (Resp.moveChicken r time delta p c).1.lastPlayerHit =
      (if (Resp.moveChicken r time delta p c).2 = true then time
       else c.lastPlayerHit) := rfl

theorem Resp.hit_step_facts (r : Resp.Draws) (time delta : ℝ) (p : Vec3)
    (fire : FireState) (c : Resp.Chicken) (hmode : c.mode ≠ Resp.Mode.respawn) :
    ((Resp.updateChicken r time delta p fire c).hitPlayer = true →
      time - c.lastPlayerHit > 0.3 ∧
      (Resp.updateChicken r time delta p fire c).chicken.lastPlayerHit = time) ∧
    ((Resp.updateChicken r time delta p fire c).hitPlayer = false →
      (Resp.updateChicken r time delta p fire c).chicken.lastPlayerHit =
        c.lastPlayerHit) := by
  have hfact1 : (Resp.moveChicken r time delta p c).2 = true →
      time - c.lastPlayerHit > 0.3 ∧
      (Resp.moveChicken r time delta p c).1.lastPlayerHit = time := by
    intro hu
    refine ⟨?_, ?_⟩
    · have hdec := hu
      rw [Resp.moveChicken_hit_iff] at hdec
      exact (of_decide_eq_true hdec).2
    · rw [Resp.moveChicken_lastHit, if_pos hu]
  have hfact0 : (Resp.moveChicken r time delta p c).2 = false →
      (Resp.moveChicken r time delta p c).1.lastPlayerHit = c.lastPlayerHit := by
    intro hu
    rw [Resp.moveChicken_lastHit, hu]
    simp
  by_cases hd : c.mode = Resp.Mode.drumstick
  · rw [Resp.updateChicken_drumstick r time delta p fire c hd]
    simp only [Resp.drumstickStep]
    constructor
    · intro hcontra
      split_ifs at hcontra
    · intro _
      split_ifs <;> rfl
  · rw [Resp.updateChicken_live r time delta p fire c hmode hd]
    simp only [Resp.liveStep, Resp.fireCenterStep]
    split_ifs with h1 h2
    · constructor
      · intro hcontra
        simp at hcontra
      · intro _
        simp [Resp.capture]
    · constructor
      · intro hu
        refine ⟨(hfact1 hu).1, ?_⟩
        show (Resp.capture (Resp.moveChicken r time delta p c).1).lastPlayerHit = time
        rw [show (Resp.capture (Resp.moveChicken r time delta p c).1).lastPlayerHit =
          (Resp.moveChicken r time delta p c).1.lastPlayerHit from rfl]
        exact (hfact1 hu).2
      · intro hu
        show (Resp.capture (Resp.moveChicken r time delta p c).1).lastPlayerHit =
          c.lastPlayerHit
        rw [show (Resp.capture (Resp.moveChicken r time delta p c).1).lastPlayerHit =
          (Resp.moveChicken r time delta p c).1.lastPlayerHit from rfl]
        exact hfact0 hu
    · exact ⟨fun hu => ⟨(hfact1 hu).1, (hfact1 hu).2⟩, fun hu => hfact0 hu⟩

theorem chain_imp_chain (R : ℝ → ℝ → Prop) (a : ℝ) :
    ∀ l : List ℝ, List.Chain R a l → List.Chain' R l := by
  intro l
  induction l generalizing a with
  | nil => intro _; exact List.chain'_nil
  | cons b rest ih =>
    intro h
    rcases List.chain_cons.1 h with ⟨_, h2⟩
    cases rest with
    | nil => exact List.chain'_singleton b
    | cons c rest2 =>
      rcases List.chain_cons.1 h2 with ⟨hbc, _⟩
      exact List.chain'_cons.2 ⟨hbc, ih b h2⟩

theorem Grow.stepChick_hit_char (r : Grow.Draws) (time delta : ℝ) (p : Vec3)
    (fire : FireState) (c : Grow.Chick) :
    (Grow.stepChick r time delta p fire c).hitPlayer =
      (if c.mode = Grow.Mode.drumstick then false
       else decide (Vec3.distanceTo p c.pos < Grow.HIT_RADIUS)) := by
  by_cases h : c.mode = Grow.Mode.drumstick
  · rw [if_pos h]
    simp only [Grow.stepChick]
    rw [if_pos h]
    split_ifs <;> rfl
  · rw [if_neg h]
    simp only [Grow.stepChick]
    rw [if_neg h]
    rw [apply_ite Grow.StepOut.hitPlayer]
    dsimp only
    rw [ite_self]

theorem Resp.drumstick_far_step (r : Resp.Draws) (time delta : ℝ) (p : Vec3)
    (fire : FireState) (c : Resp.Chicken) (hmode : c.mode = Resp.Mode.drumstick)
    (hfar : ¬Vec3.distanceTo (c.position.setY Resp.BASE_HEIGHT) p <
      Resp.DRUMSTICK_PICKUP_RADIUS)
    (hop : ¬max 0 (1 - (c.drumstickTimer + delta) / Resp.DRUMSTICK_DURATION) ≤ 0.01) :
    (Resp.updateChicken r time delta p fire c).chicken =
      { c with
        drumstickTimer := c.drumstickTimer + delta
        drumstickOpacity := max 0 (1 - (c.drumstickTimer + delta) / Resp.DRUMSTICK_DURATION)
        alert := false
        velocity := Vec3.zero
        position := c.position.setY Resp.BASE_HEIGHT } := by
  rw [Resp.updateChicken_drumstick r time delta p fire c hmode]
  simp only [Resp.drumstickStep]
  rw [if_neg hfar, if_neg hop]

/-! Helper lemmas for the replace-and-grow engine. -/

theorem mapIdx_of_ignore {α β : Type} (g : α → β) :
    ∀ l : List α, (l.mapIdx fun _ a => g a) = l.map g := by
  intro l
  induction l with
  | nil => rfl
  | cons a rest ih =>
    rw [List.mapIdx_cons, List.map_cons, ih]

theorem Grow.liveCount_eq_countP (cs : List Grow.Chick) :
    Grow.liveCount cs =
      cs.countP fun c => decide (¬(c.mode = Grow.Mode.drumstick ∧ c.collected = true)) := by
  simp [Grow.liveCount, List.countP_eq_length_filter]

theorem Grow.stepChick_dead (r : Grow.Draws) (time delta : ℝ) (p : Vec3)
    (fire : FireState) (c : Grow.Chick)
    (h1 : c.mode = Grow.Mode.drumstick) (h2 : c.collected = true) :
    (Grow.stepChick r time delta p fire c).chick.mode = Grow.Mode.drumstick ∧
    (Grow.stepChick r time delta p fire c).chick.collected = true := by
  simp [Grow.stepChick, h1, h2]

theorem Grow.liveCount_step_le (time delta : ℝ) (p : Vec3) (fire : FireState) :
    ∀ (cs : List Grow.Chick) (rs : ℕ → Grow.Draws),
      Grow.liveCount
        (cs.mapIdx fun i c => (Grow.stepChick (rs i) time delta p fire c).chick) ≤
      Grow.liveCount cs := by
  intro cs
  induction cs with
  | nil =>
    intro rs
    simp [Grow.liveCount]
  | cons a rest ih =>
    intro rs
    rw [List.mapIdx_cons, Grow.liveCount_eq_countP, Grow.liveCount_eq_countP,
      List.countP_cons, List.countP_cons]
    have htail := ih fun i => rs (i + 1)
    rw [Grow.liveCount_eq_countP, Grow.liveCount_eq_countP] at htail
    by_cases hdead : a.mode = Grow.Mode.drumstick ∧ a.collected = true
    · have hout := Grow.stepChick_dead (rs 0) time delta p fire a hdead.1 hdead.2
      have e1 : (decide (¬((Grow.stepChick (rs 0) time delta p fire a).chick.mode =
          Grow.Mode.drumstick ∧
          (Grow.stepChick (rs 0) time delta p fire a).chick.collected = true))) = false := by
        simp [hout.1, hout.2]
      have e2 : (decide (¬(a.mode = Grow.Mode.drumstick ∧ a.collected = true))) = false := by
        simp [hdead.1, hdead.2]
      rw [e1, e2]
      simpa using htail
    · have e2 : (decide (¬(a.mode = Grow.Mode.drumstick ∧ a.collected = true))) = true :=
        decide_eq_true hdead
      rw [e2]
      have hhead : ((if (decide (¬((Grow.stepChick (rs 0) time delta p fire a).chick.mode =
          Grow.Mode.drumstick ∧
          (Grow.stepChick (rs 0) time delta p fire a).chick.collected = true))) = true
          then 1 else 0) : ℕ) ≤ 1 := by
        split_ifs <;> norm_num
      simp only [eq_self_iff_true, if_true]
      omega

theorem map_mapIdx {α β γ : Type} (g : β → γ) :
    ∀ (l : List α) (f : ℕ → α → β), (l.mapIdx f).map g = l.mapIdx fun i a => g (f i a) := by
  intro l
  induction l with
  | nil => intro f; rfl
  | cons a rest ih =>
    intro f
    rw [List.mapIdx_cons, List.map_cons, List.mapIdx_cons, ih]

theorem Grow.frame_accum (rs : ℕ → Grow.Draws) (rNew : Grow.Draws) (time delta : ℝ)
    (player : Option Vec3) (fire : FireState) (st : Grow.EngineState)
    (hlive : Grow.liveCount st.chicks < Grow.CHICKEN_COUNT)
    (hlt : ¬st.respawnTimer + delta ≥ Grow.RESPAWN_DELAY) :
    (Grow.frameEngine rs rNew time delta player fire st).state.respawnTimer =
      st.respawnTimer + delta ∧
    (Grow.frameEngine rs rNew time delta player fire st).state.chicks.length =
      st.chicks.length ∧
    Grow.liveCount (Grow.frameEngine rs rNew time delta player fire st).state.chicks ≤
      Grow.liveCount st.chicks := by
  have hnp : ¬(Grow.liveCount st.chicks < Grow.CHICKEN_COUNT ∧
      st.respawnTimer + delta ≥ Grow.RESPAWN_DELAY) := fun hc => hlt hc.2
  simp only [Grow.frameEngine]
  refine ⟨?_, ?_, ?_⟩
  · rw [if_pos hlive, if_neg hlt]
  · rw [if_neg hnp, List.append_nil]
    simp
  · rw [if_neg hnp, List.append_nil, map_mapIdx]
    exact Grow.liveCount_step_le time delta _ fire st.chicks rs

theorem Grow.frame_push (rs : ℕ → Grow.Draws) (rNew : Grow.Draws) (time delta : ℝ)
    (player : Option Vec3) (fire : FireState) (st : Grow.EngineState)
    (hlive : Grow.liveCount st.chicks < Grow.CHICKEN_COUNT)
    (hge : st.respawnTimer + delta ≥ Grow.RESPAWN_DELAY) :
    (Grow.frameEngine rs rNew time delta player fire st).state.respawnTimer = 0 ∧
    (Grow.frameEngine rs rNew time delta player fire st).state.chicks.length =
      st.chicks.length + 1 := by
  simp only [Grow.frameEngine]
  refine ⟨?_, ?_⟩
  · rw [if_pos hlive, if_pos hge]
  · rw [if_pos ⟨hlive, hge⟩]
    simp

theorem Grow.frame_live_le (rs : ℕ → Grow.Draws) (rNew : Grow.Draws) (time delta : ℝ)
    (player : Option Vec3) (fire : FireState) (st : Grow.EngineState)
    (h5 : Grow.liveCount st.chicks ≤ Grow.CHICKEN_COUNT) :
    Grow.liveCount (Grow.frameEngine rs rNew time delta player fire st).state.chicks ≤
      Grow.CHICKEN_COUNT := by
  simp only [Grow.frameEngine]
  rw [map_mapIdx]
  refine le_trans (Grow.liveCount_step_le time delta _ fire _ rs) ?_
  by_cases hp : Grow.liveCount st.chicks < Grow.CHICKEN_COUNT ∧
      st.respawnTimer + delta ≥ Grow.RESPAWN_DELAY
  · rw [if_pos hp, Grow.liveCount_eq_countP, List.countP_append]
    have h1 : (Grow.liveCount st.chicks : ℕ) + 1 ≤ Grow.CHICKEN_COUNT := hp.1
    have h2 : ([Grow.newChick rNew].countP fun c =>
        decide (¬(c.mode = Grow.Mode.drumstick ∧ c.collected = true))) ≤ 1 :=
      le_trans (List.countP_le_length _) (by simp)
    rw [Grow.liveCount_eq_countP] at h1
    omega
  · rw [if_neg hp, List.append_nil]
    exact h5

theorem Grow.runEngine_append (rs : ℕ → Grow.Draws) (rNew : Grow.Draws)
    (player : Option Vec3) (fire : FireState) (a b : List (ℝ × ℝ))
    (st : Grow.EngineState) :
    Grow.runEngine rs rNew player fire (a ++ b) st =
      Grow.runEngine rs rNew player fire b (Grow.runEngine rs rNew player fire a st) := by
  induction a generalizing st with
  | nil => rfl
  | cons f rest ih => simp [Grow.runEngine, ih]

theorem Grow.replenish_accumulate (rs : ℕ → Grow.Draws) (rNew : Grow.Draws)
    (player : Option Vec3) (fire : FireState) (frames : List (ℝ × ℝ)) :
    ∀ st : Grow.EngineState, Grow.liveCount st.chicks < Grow.CHICKEN_COUNT →
      (∀ f ∈ frames, 0 ≤ f.2) →
      st.respawnTimer + sumDeltas frames < Grow.RESPAWN_DELAY →
      (Grow.runEngine rs rNew player fire frames st).chicks.length = st.chicks.length ∧
      (Grow.runEngine rs rNew player fire frames st).respawnTimer =
        st.respawnTimer + sumDeltas frames ∧
      Grow.liveCount (Grow.runEngine rs rNew player fire frames st).chicks <
        Grow.CHICKEN_COUNT := by
  induction frames with
  | nil =>
    intro st h1 _ _
    exact ⟨rfl, by simp [Grow.runEngine, sumDeltas], h1⟩
  | cons f rest ih =>
    intro st h1 hd h2
    rw [sumDeltas_cons] at h2
    have hrest : 0 ≤ sumDeltas rest :=
      sumDeltas_nonneg rest fun g hg => hd g (by simp [hg])
    have hf : 0 ≤ f.2 := hd f (by simp)
    have hlt : ¬st.respawnTimer + f.2 ≥ Grow.RESPAWN_DELAY := by
      simp only [ge_iff_le, not_le]
      linarith
    have hacc := Grow.frame_accum rs rNew f.1 f.2 player fire st h1 hlt
    have hih := ih (Grow.frameEngine rs rNew f.1 f.2 player fire st).state
      (lt_of_le_of_lt hacc.2.2 h1) (fun g hg => hd g (by simp [hg]))
      (by rw [hacc.1]; linarith)
    refine ⟨?_, ?_, ?_⟩
    · rw [show Grow.runEngine rs rNew player fire (f :: rest) st =
        Grow.runEngine rs rNew player fire rest
          (Grow.frameEngine rs rNew f.1 f.2 player fire st).state from rfl]
      rw [hih.1, hacc.2.1]
    · rw [show Grow.runEngine rs rNew player fire (f :: rest) st =
        Grow.runEngine rs rNew player fire rest
          (Grow.frameEngine rs rNew f.1 f.2 player fire st).state from rfl]
      rw [hih.2.1, hacc.1, sumDeltas_cons]
      ring
    · rw [show Grow.runEngine rs rNew player fire (f :: rest) st =
        Grow.runEngine rs rNew player fire rest
          (Grow.frameEngine rs rNew f.1 f.2 player fire st).state from rfl]
      exact hih.2.2

theorem Grow.stepChick_drum_far (r : Grow.Draws) (time delta : ℝ) (p : Vec3)
    (fire : FireState) (c : Grow.Chick)
    (h1 : c.mode = Grow.Mode.drumstick) (h2 : c.collected = false)
    (hfar : ¬Vec3.distanceTo p c.pos < Grow.HIT_RADIUS) :
    Grow.stepChick r time delta p fire c =
      ⟨{ c with
          drumTime := c.drumTime + delta
          opacity := max 0 (1 - (c.drumTime + delta) / Grow.DRUMSTICK_DURATION)
          vel := Vec3.zero }, false, false⟩ := by
  simp only [Grow.stepChick]
  rw [if_pos h1, if_pos h2]
  rw [if_neg (by
    intro hc
    exact hfar hc.2.2)]

/-- A whole frame of the replace-and-grow engine on a roster of five
identical fading (never picked up) drumsticks with the player — present or
missing, the stored position being the same point 1000 units away — far from
all of them: every fade timer advances by the frame's delta of one second and
nothing else changes; in particular the roster is never replenished, because
uncollected drumsticks still count as live. -/
theorem Grow.captured_far_frame (t dt0 dt1 : ℝ) (pl : Option Vec3)
    (hpl : pl = none ∨ pl = some ⟨1000, 8.5, -70⟩)
    (hdt : dt0 + 1 = dt1) :
    Grow.frameEngine (fun _ => ⟨0, 0, 0, 0, 0, 0, 0⟩) ⟨0, 0, 0, 0, 0, 0, 0⟩ t 1 pl
      ⟨[], 0, false⟩
      ⟨List.replicate 5 ⟨⟨0, 8.5, -70⟩, Vec3.zero, 0, 10, 0, Grow.Mode.drumstick, false,
        dt0, max 0 (1 - dt0 / Grow.DRUMSTICK_DURATION), false⟩, 0, 0, [],
        ⟨1000, 8.5, -70⟩⟩ =
    ⟨⟨List.replicate 5 ⟨⟨0, 8.5, -70⟩, Vec3.zero, 0, 10, 0, Grow.Mode.drumstick, false,
        dt1, max 0 (1 - dt1 / Grow.DRUMSTICK_DURATION), false⟩, 0, 0, [],
        ⟨1000, 8.5, -70⟩⟩, false⟩ := by
  have hfar : ¬Vec3.distanceTo ⟨1000, 8.5, -70⟩ ⟨0, 8.5, -70⟩ < Grow.HIT_RADIUS := by
    rw [distanceTo_eval ⟨1000, 8.5, -70⟩ ⟨0, 8.5, -70⟩ 1000 (by norm_num) (by norm_num)]
    norm_num [Grow.HIT_RADIUS]
  have hstep : Grow.stepChick ⟨0, 0, 0, 0, 0, 0, 0⟩ t 1 ⟨1000, 8.5, -70⟩ ⟨[], 0, false⟩
      ⟨⟨0, 8.5, -70⟩, Vec3.zero, 0, 10, 0, Grow.Mode.drumstick, false, dt0,
        max 0 (1 - dt0 / Grow.DRUMSTICK_DURATION), false⟩ =
      ⟨⟨⟨0, 8.5, -70⟩, Vec3.zero, 0, 10, 0, Grow.Mode.drumstick, false, dt1,
        max 0 (1 - dt1 / Grow.DRUMSTICK_DURATION), false⟩, false, false⟩ := by
    rw [Grow.stepChick_drum_far ⟨0, 0, 0, 0, 0, 0, 0⟩ t 1 ⟨1000, 8.5, -70⟩ ⟨[], 0, false⟩
      ⟨⟨0, 8.5, -70⟩, Vec3.zero, 0, 10, 0, Grow.Mode.drumstick, false, dt0,
        max 0 (1 - dt0 / Grow.DRUMSTICK_DURATION), false⟩ rfl rfl hfar]
    rw [show ((⟨⟨0, 8.5, -70⟩, Vec3.zero, 0, 10, 0, Grow.Mode.drumstick, false, dt0,
      max 0 (1 - dt0 / Grow.DRUMSTICK_DURATION), false⟩ : Grow.Chick).drumTime + 1) =
      dt0 + 1 from rfl, hdt]
  have hlive : Grow.liveCount (List.replicate 5
      (⟨⟨0, 8.5, -70⟩, Vec3.zero, 0, 10, 0, Grow.Mode.drumstick, false, dt0,
        max 0 (1 - dt0 / Grow.DRUMSTICK_DURATION), false⟩ : Grow.Chick)) = 5 := by
    simp [Grow.liveCount, List.replicate_succ]
  rcases hpl with rfl | rfl <;>
  · simp only [Grow.frameEngine, hlive]
    rw [if_neg (by norm_num [Grow.CHICKEN_COUNT]),
      if_neg (by
        intro hc
        norm_num [Grow.CHICKEN_COUNT] at hc), List.append_nil]
    simp [map_mapIdx, mapIdx_of_ignore, List.map_replicate, hstep, List.replicate_succ]

end DinoWeb

/-! The claim theorems. -/

namespace DinoWeb

/-- Claim C1: while the lock flag is set, a player frame leaves the player
state (in particular the position) unchanged, publishes the fire-emission
state as inactive with an empty target list, performs no movement
integration and invokes no landmark-trigger callback. -/
theorem claim1_locked_player_frame :
    ∀ (moveForward moveTurn : ℝ) (firing : Bool) (mouth fwd : DinoWeb.Vec3)
      (prevFire : DinoWeb.FireState) (st : DinoWeb.Player.State),
      (DinoWeb.Player.updateFrame true true moveForward moveTurn firing mouth fwd
          prevFire st).player = st ∧
      (DinoWeb.Player.updateFrame true true moveForward moveTurn firing mouth fwd
          prevFire st).fire = ⟨[], DinoWeb.Player.FIRE_HIT_RADIUS, false⟩ ∧
      (DinoWeb.Player.updateFrame true true moveForward moveTurn firing mouth fwd
          prevFire st).triggers = [] := by
  intro moveForward moveTurn firing mouth fwd prevFire st
  refine ⟨?_, ?_, ?_⟩ <;> simp [DinoWeb.Player.updateFrame]

/-- Claim C7: the player's height is the stateless function `stairsHeight` of
the depth, recomputed by every unlocked frame: strictly inside the stair band
it is the linear interpolation between ground level and platform level,
at or past the band edges it snaps to the nearer level, and at the exact band
midpoint it equals the midpoint interpolation. -/
theorem claim7_stair_ramp :
    (∀ z : ℝ, DinoWeb.Player.stairEndZ < z → z < DinoWeb.Player.stairStartZ →
      DinoWeb.Player.stairsHeight z =
        DinoWeb.lerp1 0 DinoWeb.Player.topY
          ((z - DinoWeb.Player.stairStartZ) /
            (DinoWeb.Player.stairEndZ - DinoWeb.Player.stairStartZ))) ∧
    (∀ z : ℝ, DinoWeb.Player.stairStartZ ≤ z → DinoWeb.Player.stairsHeight z = 0) ∧
    (∀ z : ℝ, z ≤ DinoWeb.Player.stairEndZ →
      DinoWeb.Player.stairsHeight z = DinoWeb.Player.topY) ∧
    DinoWeb.Player.stairsHeight
        ((DinoWeb.Player.stairStartZ + DinoWeb.Player.stairEndZ) / 2) =
      (0 + DinoWeb.Player.topY) / 2 ∧
    (∀ (moveForward moveTurn : ℝ) (firing : Bool) (mouth fwd : DinoWeb.Vec3)
      (prevFire : DinoWeb.FireState) (st : DinoWeb.Player.State),
      (DinoWeb.Player.updateFrame true false moveForward moveTurn firing mouth fwd
          prevFire st).player.position.y =
        DinoWeb.Player.stairsHeight
          (DinoWeb.Player.updateFrame true false moveForward moveTurn firing mouth fwd
              prevFire st).player.position.z) := by
  refine ⟨?_, ?_, ?_, ?_, ?_⟩
  · intro z h1 h2
    rw [DinoWeb.Player.stairsHeight, if_pos ⟨h2, h1⟩]
  · intro z h
    have h1 : ¬(z < DinoWeb.Player.stairStartZ ∧ z > DinoWeb.Player.stairEndZ) := by
      intro hc
      exact absurd h (not_le.2 hc.1)
    have h2 : ¬(z ≤ DinoWeb.Player.stairEndZ) := by
      unfold DinoWeb.Player.stairStartZ at h
      unfold DinoWeb.Player.stairEndZ
      linarith
    rw [DinoWeb.Player.stairsHeight, if_neg h1, if_neg h2]
  · intro z h
    have h1 : ¬(z < DinoWeb.Player.stairStartZ ∧ z > DinoWeb.Player.stairEndZ) := by
      intro hc
      exact absurd h (not_le.2 hc.2)
    rw [DinoWeb.Player.stairsHeight, if_neg h1, if_pos h]
  · have h1 : DinoWeb.Player.stairStartZ = (-5 : ℝ) := rfl
    have h2 : DinoWeb.Player.stairEndZ = (-25 : ℝ) := rfl
    have h3 : DinoWeb.Player.topY = (8 : ℝ) := rfl
    rw [h1, h2, h3]
    norm_num [DinoWeb.Player.stairsHeight, DinoWeb.Player.stairStartZ,
      DinoWeb.Player.stairEndZ, DinoWeb.Player.topY, DinoWeb.lerp1]
  · intro moveForward moveTurn firing mouth fwd prevFire st
    simp [DinoWeb.Player.updateFrame, DinoWeb.Vec3.setY]

/-- Claim C3: at the end of any frame of the respawn-variant per-creature
update (the random draws being unit-interval samples), a creature left in
Wander or Chase has horizontal position inside the activity rectangle, a
creature left Captured (drumstick) has zero velocity, and the mode is exactly
one of the four (immediate from the sum-type embedding of the mode field). -/
theorem claim3_frame_invariants (r : Resp.Draws) (time delta : ℝ) (p : Vec3)
    (fire : FireState) (c : Resp.Chicken)
    (hrx0 : 0 ≤ r.rx) (hrx1 : r.rx ≤ 1) (hrz0 : 0 ≤ r.rz) (hrz1 : r.rz ≤ 1) :
    ((Resp.updateChicken r time delta p fire c).chicken.mode = Resp.Mode.wander ∨
      (Resp.updateChicken r time delta p fire c).chicken.mode = Resp.Mode.chase →
      |(Resp.updateChicken r time delta p fire c).chicken.position.x| ≤ Resp.AREA_X ∧
      Resp.AREA_Z_MIN ≤ (Resp.updateChicken r time delta p fire c).chicken.position.z ∧
      (Resp.updateChicken r time delta p fire c).chicken.position.z ≤ Resp.AREA_Z_MAX) ∧
    ((Resp.updateChicken r time delta p fire c).chicken.mode = Resp.Mode.drumstick →
      (Resp.updateChicken r time delta p fire c).chicken.velocity = Vec3.zero) ∧
    ((if (Resp.updateChicken r time delta p fire c).chicken.mode = Resp.Mode.wander
        then 1 else 0) +
      (if (Resp.updateChicken r time delta p fire c).chicken.mode = Resp.Mode.chase
        then 1 else 0) +
      (if (Resp.updateChicken r time delta p fire c).chicken.mode = Resp.Mode.drumstick
        then 1 else 0) +
      (if (Resp.updateChicken r time delta p fire c).chicken.mode = Resp.Mode.respawn
        then 1 else 0) : ℕ) = 1 := by
  refine ⟨?_, ?_, Resp.mode_exclusive _⟩
  · rcases hmode : c.mode with hw | hc2 | hd | hr
    · rw [Resp.updateChicken_live r time delta p fire c (by simp [hmode]) (by simp [hmode])]
      simp only [Resp.liveStep, Resp.fireCenterStep]
      split_ifs with h1 h2
      · intro hcontra
        simp [Resp.capture] at hcontra
      · intro hcontra
        simp [Resp.capture] at hcontra
      · intro _
        have h := Resp.moveChicken_facts r time delta p c
        exact ⟨h.1, h.2.1, h.2.2.1⟩
    · rw [Resp.updateChicken_live r time delta p fire c (by simp [hmode]) (by simp [hmode])]
      simp only [Resp.liveStep, Resp.fireCenterStep]
      split_ifs with h1 h2
      · intro hcontra
        simp [Resp.capture] at hcontra
      · intro hcontra
        simp [Resp.capture] at hcontra
      · intro _
        have h := Resp.moveChicken_facts r time delta p c
        exact ⟨h.1, h.2.1, h.2.2.1⟩
    · rw [Resp.updateChicken_drumstick r time delta p fire c hmode]
      simp only [Resp.drumstickStep]
      split_ifs with h1 h2 <;> intro hcontra <;> simp [hmode] at hcontra
    · rw [Resp.updateChicken_respawn r time delta p fire c hmode]
      simp only [Resp.respawnStep]
      split_ifs with h1
      · intro _
        simp only [Resp.randomizeChicken]
        refine ⟨?_, ?_, ?_⟩
        · have ha : |Resp.startXs r.seed| ≤ 12 := Resp.startXs_abs_le r.seed
          have hb : |(r.rx - 0.5) * 1.5| ≤ 0.75 := by
            rw [abs_mul]
            have : |r.rx - 0.5| ≤ 0.5 := abs_le.2 ⟨by linarith, by linarith⟩
            calc |r.rx - 0.5| * |(1.5 : ℝ)| ≤ 0.5 * 1.5 := by
                  rw [abs_of_pos (by norm_num : (0:ℝ) < 1.5)]
                  nlinarith
              _ = 0.75 := by norm_num
          calc |Resp.startXs r.seed + (r.rx - 0.5) * 1.5| ≤
                |Resp.startXs r.seed| + |(r.rx - 0.5) * 1.5| := abs_add _ _
            _ ≤ 12 + 0.75 := by linarith
            _ ≤ Resp.AREA_X := by norm_num [Resp.AREA_X]
        · have : -2 ≤ (r.rz - 0.5) * 4 := by nlinarith
          simp only [Resp.AREA_Z_MIN]
          linarith
        · have : (r.rz - 0.5) * 4 ≤ 2 := by nlinarith
          simp only [Resp.AREA_Z_MAX]
          linarith
      · intro hcontra
        simp [hmode] at hcontra
  · rcases hmode : c.mode with hw | hc2 | hd | hr
    · rw [Resp.updateChicken_live r time delta p fire c (by simp [hmode]) (by simp [hmode])]
      simp only [Resp.liveStep, Resp.fireCenterStep]
      split_ifs with h1 h2
      · intro _
        simp [Resp.capture]
      · intro _
        simp [Resp.capture]
      · intro hcontra
        exact absurd hcontra (Resp.moveChicken_facts r time delta p c).2.2.2.2.1
    · rw [Resp.updateChicken_live r time delta p fire c (by simp [hmode]) (by simp [hmode])]
      simp only [Resp.liveStep, Resp.fireCenterStep]
      split_ifs with h1 h2
      · intro _
        simp [Resp.capture]
      · intro _
        simp [Resp.capture]
      · intro hcontra
        exact absurd hcontra (Resp.moveChicken_facts r time delta p c).2.2.2.2.1
    · rw [Resp.updateChicken_drumstick r time delta p fire c hmode]
      simp only [Resp.drumstickStep]
      split_ifs with h1 h2 <;> intro hcontra <;> simp at hcontra ⊢
    · rw [Resp.updateChicken_respawn r time delta p fire c hmode]
      simp only [Resp.respawnStep]
      split_ifs with h1 <;> intro hcontra <;>
        simp [Resp.randomizeChicken, hmode] at hcontra

/-- Claim C2: with the fire-emission state active, a creature not already
Captured (drumstick) or Respawning is transitioned this frame to Captured as
soon as its position passes the foot-fire box test (tested, as in the source,
on the pre-move position) or the fire-center proximity test (tested on the
post-move position); the captured record has drumstick timer 0, opacity 1 and
zero velocity.  A creature already Captured or Respawning is never subjected
to either test: its frame does not depend on the fire state at all. -/
theorem claim2_fire_capture (r : Resp.Draws) (time delta : ℝ) (p : Vec3)
    (fire : FireState) (c : Resp.Chicken)
    (h1 : c.mode ≠ Resp.Mode.drumstick) (h2 : c.mode ≠ Resp.Mode.respawn)
    (hact : fire.fireActive = true) :
    (Resp.footFireHit p c.position →
      (Resp.updateChicken r time delta p fire c).chicken = Resp.capture c) ∧
    (¬Resp.footFireHit p c.position →
      Resp.fireCenterHit fire (Resp.moveChicken r time delta p c).1.position →
      (Resp.updateChicken r time delta p fire c).chicken =
        Resp.capture (Resp.moveChicken r time delta p c).1) ∧
    (∀ c' : Resp.Chicken, (Resp.capture c').mode = Resp.Mode.drumstick ∧
      (Resp.capture c').drumstickTimer = 0 ∧ (Resp.capture c').drumstickOpacity = 1 ∧
      (Resp.capture c').velocity = Vec3.zero) ∧
    (∀ c2 : Resp.Chicken, c2.mode = Resp.Mode.drumstick ∨ c2.mode = Resp.Mode.respawn →
      ∀ fire2 : FireState,
        Resp.updateChicken r time delta p fire c2 =
          Resp.updateChicken r time delta p fire2 c2) := by
  refine ⟨?_, ?_, ?_, ?_⟩
  · intro hhit
    rw [Resp.updateChicken_live r time delta p fire c h2 h1]
    simp only [Resp.liveStep]
    rw [if_pos ⟨hact, hhit⟩]
  · intro hmiss hcen
    rw [Resp.updateChicken_live r time delta p fire c h2 h1]
    simp only [Resp.liveStep]
    rw [if_neg (by intro hcontra; exact hmiss hcontra.2)]
    simp only [Resp.fireCenterStep]
    rw [if_pos ⟨hact, hcen⟩]
  · intro c'
    refine ⟨?_, ?_, ?_, ?_⟩ <;> simp [Resp.capture]
  · intro c2 hmode2 fire2
    rcases hmode2 with hd | hr
    · rw [Resp.updateChicken_drumstick r time delta p fire c2 hd,
        Resp.updateChicken_drumstick r time delta p fire2 c2 hd]
    · rw [Resp.updateChicken_respawn r time delta p fire c2 hr,
        Resp.updateChicken_respawn r time delta p fire2 c2 hr]

/-- Witness for claim C2: the theorem instantiated at a concrete wandering
creature and a concrete active fire state. -/
theorem claim2_witness :
    (let r0 : Resp.Draws := ⟨0, 0, 0, 0, 0, 0, 0, 0⟩
     let p0 : Vec3 := ⟨0, 0, 0⟩
     let f0 : FireState := ⟨[], 1, true⟩
     let c0 : Resp.Chicken :=
       ⟨⟨0, 8.5, -70⟩, Vec3.zero, 0, 1, 0, Resp.Mode.wander, false, 0, 1, -10, 0⟩
     (Resp.footFireHit p0 c0.position →
       (Resp.updateChicken r0 0 1 p0 f0 c0).chicken = Resp.capture c0) ∧
     (¬Resp.footFireHit p0 c0.position →
       Resp.fireCenterHit f0 (Resp.moveChicken r0 0 1 p0 c0).1.position →
       (Resp.updateChicken r0 0 1 p0 f0 c0).chicken =
         Resp.capture (Resp.moveChicken r0 0 1 p0 c0).1) ∧
     (∀ c' : Resp.Chicken, (Resp.capture c').mode = Resp.Mode.drumstick ∧
       (Resp.capture c').drumstickTimer = 0 ∧ (Resp.capture c').drumstickOpacity = 1 ∧
       (Resp.capture c').velocity = Vec3.zero) ∧
     (∀ c2 : Resp.Chicken, c2.mode = Resp.Mode.drumstick ∨ c2.mode = Resp.Mode.respawn →
       ∀ fire2 : FireState,
         Resp.updateChicken r0 0 1 p0 f0 c2 = Resp.updateChicken r0 0 1 p0 fire2 c2)) :=
  claim2_fire_capture ⟨0, 0, 0, 0, 0, 0, 0, 0⟩ 0 1 ⟨0, 0, 0⟩ ⟨[], 1, true⟩
    ⟨⟨0, 8.5, -70⟩, Vec3.zero, 0, 1, 0, Resp.Mode.wander, false, 0, 1, -10, 0⟩
    (by decide) (by decide) rfl

/-- Witness for claim C3: the theorem instantiated at a concrete wandering
creature, zero draws, and an inactive fire state. -/
theorem claim3_witness :
    (let r0 : Resp.Draws := ⟨0, 0, 0, 0, 0, 0, 0, 0⟩
     let p0 : Vec3 := ⟨0, 0, 0⟩
     let f0 : FireState := ⟨[], 0, false⟩
     let c0 : Resp.Chicken :=
       ⟨⟨0, 8.5, -70⟩, Vec3.zero, 0, 1, 0, Resp.Mode.wander, false, 0, 1, -10, 0⟩
     ((Resp.updateChicken r0 0 1 p0 f0 c0).chicken.mode = Resp.Mode.wander ∨
       (Resp.updateChicken r0 0 1 p0 f0 c0).chicken.mode = Resp.Mode.chase →
       |(Resp.updateChicken r0 0 1 p0 f0 c0).chicken.position.x| ≤ Resp.AREA_X ∧
       Resp.AREA_Z_MIN ≤ (Resp.updateChicken r0 0 1 p0 f0 c0).chicken.position.z ∧
       (Resp.updateChicken r0 0 1 p0 f0 c0).chicken.position.z ≤ Resp.AREA_Z_MAX) ∧
     ((Resp.updateChicken r0 0 1 p0 f0 c0).chicken.mode = Resp.Mode.drumstick →
       (Resp.updateChicken r0 0 1 p0 f0 c0).chicken.velocity = Vec3.zero) ∧
     ((if (Resp.updateChicken r0 0 1 p0 f0 c0).chicken.mode = Resp.Mode.wander
         then 1 else 0) +
       (if (Resp.updateChicken r0 0 1 p0 f0 c0).chicken.mode = Resp.Mode.chase
         then 1 else 0) +
       (if (Resp.updateChicken r0 0 1 p0 f0 c0).chicken.mode = Resp.Mode.drumstick
         then 1 else 0) +
       (if (Resp.updateChicken r0 0 1 p0 f0 c0).chicken.mode = Resp.Mode.respawn
         then 1 else 0) : ℕ) = 1) :=
  claim3_frame_invariants ⟨0, 0, 0, 0, 0, 0, 0, 0⟩ 0 1 ⟨0, 0, 0⟩ ⟨[], 0, false⟩
    ⟨⟨0, 8.5, -70⟩, Vec3.zero, 0, 1, 0, Resp.Mode.wander, false, 0, 1, -10, 0⟩
    (by norm_num) (by norm_num) (by norm_num) (by norm_num)

/-- Counterexample for claim C4: a creature of the respawn variant captured
at time 0 (drumstick timer 0, opacity 1) and never picked up (the player
stays 50 units away) is still Captured after four one-second frames — total
elapsed time 4, which is at least `RESPAWN_DELAY + 1` (the respawn delay plus
one full frame) — so it does not re-enter Wander within
`respawnDelay + one frame` of the capture. -/
theorem claim4_counterexample :
    (Resp.runChicken ⟨0, 0, 0, 0, 0, 0, 0, 0⟩ ⟨0, 8.5, -20⟩ ⟨[], 0, false⟩
        [(1, 1), (2, 1), (3, 1), (4, 1)]
        ⟨⟨0, 8.5, -70⟩, Vec3.zero, 0, 10, 0, Resp.Mode.drumstick, false, 0, 1,
          -10, 0⟩).mode = Resp.Mode.drumstick ∧
    Resp.RESPAWN_DELAY + 1 ≤ sumDeltas [((1 : ℝ), (1 : ℝ)), (2, 1), (3, 1), (4, 1)] := by
  have hdist : Vec3.distanceTo ⟨0, 8.5, -70⟩ ⟨0, 8.5, -20⟩ = 50 :=
    distanceTo_eval ⟨0, 8.5, -70⟩ ⟨0, 8.5, -20⟩ 50 (by norm_num) (by norm_num)
  have hfar : ¬Vec3.distanceTo (Vec3.setY ⟨0, 8.5, -70⟩ Resp.BASE_HEIGHT) ⟨0, 8.5, -20⟩ <
      Resp.DRUMSTICK_PICKUP_RADIUS := by
    rw [show Vec3.setY ⟨0, 8.5, -70⟩ Resp.BASE_HEIGHT = ⟨0, 8.5, -70⟩ from rfl, hdist]
    norm_num [Resp.DRUMSTICK_PICKUP_RADIUS]
  have key : ∀ (time dt0 dt1 op : ℝ),
      dt0 + 1 = dt1 → max 0 (1 - dt1 / Resp.DRUMSTICK_DURATION) = op → ¬op ≤ 0.01 →
      (Resp.updateChicken ⟨0, 0, 0, 0, 0, 0, 0, 0⟩ time 1 ⟨0, 8.5, -20⟩ ⟨[], 0, false⟩
          ⟨⟨0, 8.5, -70⟩, Vec3.zero, 0, 10, 0, Resp.Mode.drumstick, false, dt0,
            max 0 (1 - dt0 / Resp.DRUMSTICK_DURATION), -10, 0⟩).chicken =
        ⟨⟨0, 8.5, -70⟩, Vec3.zero, 0, 10, 0, Resp.Mode.drumstick, false, dt1,
          max 0 (1 - dt1 / Resp.DRUMSTICK_DURATION), -10, 0⟩ := by
    intro time dt0 dt1 op h1 h2 h3
    rw [Resp.drumstick_far_step ⟨0, 0, 0, 0, 0, 0, 0, 0⟩ time 1 ⟨0, 8.5, -20⟩ ⟨[], 0, false⟩
        ⟨⟨0, 8.5, -70⟩, Vec3.zero, 0, 10, 0, Resp.Mode.drumstick, false, dt0,
          max 0 (1 - dt0 / Resp.DRUMSTICK_DURATION), -10, 0⟩ rfl hfar
        (by
          show ¬max 0 (1 - (dt0 + 1) / Resp.DRUMSTICK_DURATION) ≤ 0.01
          rw [h1, h2]
          exact h3)]
    show (⟨Vec3.setY ⟨0, 8.5, -70⟩ Resp.BASE_HEIGHT, Vec3.zero, 0, 10, 0,
        Resp.Mode.drumstick, false, dt0 + 1,
        max 0 (1 - (dt0 + 1) / Resp.DRUMSTICK_DURATION), -10, 0⟩ : Resp.Chicken) = _
    rw [h1]
    rfl
  constructor
  · have hm1 : max (0 : ℝ) (1 - 0 / Resp.DRUMSTICK_DURATION) = 1 := by
      rw [max_eq_right] <;> norm_num [Resp.DRUMSTICK_DURATION]
    simp only [Resp.runChicken]
    rw [show (⟨⟨0, 8.5, -70⟩, Vec3.zero, 0, 10, 0, Resp.Mode.drumstick, false, 0, 1,
        -10, 0⟩ : Resp.Chicken) =
      ⟨⟨0, 8.5, -70⟩, Vec3.zero, 0, 10, 0, Resp.Mode.drumstick, false, 0,
        max 0 (1 - 0 / Resp.DRUMSTICK_DURATION), -10, 0⟩ from by rw [hm1]]
    rw [key 1 0 1 0.8 (by norm_num)
      (by rw [max_eq_right] <;> norm_num [Resp.DRUMSTICK_DURATION]) (by norm_num)]
    rw [key 2 1 2 0.6 (by norm_num)
      (by rw [max_eq_right] <;> norm_num [Resp.DRUMSTICK_DURATION]) (by norm_num)]
    rw [key 3 2 3 0.4 (by norm_num)
      (by rw [max_eq_right] <;> norm_num [Resp.DRUMSTICK_DURATION]) (by norm_num)]
    rw [key 4 3 4 0.2 (by norm_num)
      (by rw [max_eq_right] <;> norm_num [Resp.DRUMSTICK_DURATION]) (by norm_num)]
  · norm_num [sumDeltas, Resp.RESPAWN_DELAY]

/-- Claim C4 (amended): the respawn delay counts from entry into the
Respawning state, not from the capture itself — a creature entering
Respawning with timer 0 stays Respawning (its timer holding the running
total) while the elapsed frame deltas total less than `RESPAWN_DELAY`, and
the first frame that pushes the total to `RESPAWN_DELAY` or beyond
reinitialises it to Wander; a captured creature that is never picked up only
reaches Respawning after its fade-out, so Wander re-entry happens later than
`respawnDelay + one frame` after the capture (see the counterexample). -/
theorem claim4_respawn_timing_amended (r : Resp.Draws) (p : Vec3) (fire : FireState)
    (frames : List (ℝ × ℝ)) (c : Resp.Chicken)
    (hmode : c.mode = Resp.Mode.respawn) (ht : c.respawnTimer = 0)
    (hd : ∀ f ∈ frames, 0 ≤ f.2) :
    (sumDeltas frames < Resp.RESPAWN_DELAY →
      (Resp.runChicken r p fire frames c).mode = Resp.Mode.respawn ∧
      (Resp.runChicken r p fire frames c).respawnTimer = sumDeltas frames) ∧
    (∀ t d : ℝ, sumDeltas frames < Resp.RESPAWN_DELAY →
      Resp.RESPAWN_DELAY ≤ sumDeltas frames + d →
      (Resp.runChicken r p fire (frames ++ [(t, d)]) c).mode = Resp.Mode.wander) := by
  constructor
  · intro hs
    rw [Resp.respawn_accumulate r p fire frames c hmode hd (by rw [ht]; linarith)]
    exact ⟨by simp [hmode], by simp [ht]⟩
  · intro t d hs hcross
    rw [Resp.runChicken_append,
      Resp.respawn_accumulate r p fire frames c hmode hd (by rw [ht]; linarith)]
    simp only [Resp.runChicken]
    rw [Resp.updateChicken_respawn _ _ _ _ _ _ (by simp [hmode])]
    simp only [Resp.respawnStep]
    rw [if_pos (by simp only [ge_iff_le]; simp [ht]; linarith)]
    simp [Resp.randomizeChicken]

/-- Witness for claim C4 (amended): a creature entering Respawning with
timer 0, iterated over no frames and then over one frame of delta exactly
`RESPAWN_DELAY`. -/
theorem claim4_witness :
    ((sumDeltas [] < Resp.RESPAWN_DELAY →
      (Resp.runChicken ⟨0, 0, 0, 0, 0, 0, 0, 0⟩ ⟨0, 0, 0⟩ ⟨[], 0, false⟩ []
          ⟨⟨0, 8.5, -70⟩, Vec3.zero, 0, 1, 0, Resp.Mode.respawn, false, 0, 0,
            -10, 0⟩).mode = Resp.Mode.respawn ∧
      (Resp.runChicken ⟨0, 0, 0, 0, 0, 0, 0, 0⟩ ⟨0, 0, 0⟩ ⟨[], 0, false⟩ []
          ⟨⟨0, 8.5, -70⟩, Vec3.zero, 0, 1, 0, Resp.Mode.respawn, false, 0, 0,
            -10, 0⟩).respawnTimer = sumDeltas []) ∧
    (∀ t d : ℝ, sumDeltas [] < Resp.RESPAWN_DELAY →
      Resp.RESPAWN_DELAY ≤ sumDeltas [] + d →
      (Resp.runChicken ⟨0, 0, 0, 0, 0, 0, 0, 0⟩ ⟨0, 0, 0⟩ ⟨[], 0, false⟩ ([] ++ [(t, d)])
          ⟨⟨0, 8.5, -70⟩, Vec3.zero, 0, 1, 0, Resp.Mode.respawn, false, 0, 0,
            -10, 0⟩).mode = Resp.Mode.wander)) :=
  claim4_respawn_timing_amended ⟨0, 0, 0, 0, 0, 0, 0, 0⟩ ⟨0, 0, 0⟩ ⟨[], 0, false⟩ []
    ⟨⟨0, 8.5, -70⟩, Vec3.zero, 0, 1, 0, Resp.Mode.respawn, false, 0, 0, -10, 0⟩
    rfl rfl (by simp)

/-- Counterexample for claim C8: a creature at distance `alertRadius - 1`
from the player whose previous velocity points sideways does enter Chase on
the next update, but its velocity after that update is not directed toward
the player's position (it is no scalar multiple of the player-ward vector):
the 12% exponential smoothing keeps most of the old sideways velocity. -/
theorem claim8_counterexample :
    Vec3.distanceTo (⟨0, 8.5, -70⟩ : Vec3) ⟨0, 8.5, -83⟩ = Resp.ALERT_RADIUS - 1 ∧
    (Resp.updateChicken ⟨0, 0, 0, 0, 0, 0, 0, 0⟩ 0 0.1 ⟨0, 8.5, -83⟩ ⟨[], 0, false⟩
        ⟨⟨0, 8.5, -70⟩, ⟨1.2, 0, 0⟩, 0, 10, 0, Resp.Mode.wander, false, 0, 1, -10,
          0⟩).chicken.mode = Resp.Mode.chase ∧
    ∀ k : ℝ,
      (Resp.updateChicken ⟨0, 0, 0, 0, 0, 0, 0, 0⟩ 0 0.1 ⟨0, 8.5, -83⟩ ⟨[], 0, false⟩
          ⟨⟨0, 8.5, -70⟩, ⟨1.2, 0, 0⟩, 0, 10, 0, Resp.Mode.wander, false, 0, 1, -10,
            0⟩).chicken.velocity ≠
        Vec3.smul k (Vec3.sub ⟨0, 8.5, -83⟩ ⟨0, 8.5, -70⟩) := by
  have hdist : Vec3.distanceTo (⟨0, 8.5, -70⟩ : Vec3) ⟨0, 8.5, -83⟩ = 13 :=
    distanceTo_eval _ _ 13 (by norm_num) (by norm_num)
  have halert : Vec3.distanceTo
      (⟨⟨0, 8.5, -70⟩, ⟨1.2, 0, 0⟩, 0, 10, 0, Resp.Mode.wander, false, 0, 1, -10, 0⟩ :
        Resp.Chicken).position ⟨0, 8.5, -83⟩ < Resp.ALERT_RADIUS := by
    show Vec3.distanceTo (⟨0, 8.5, -70⟩ : Vec3) ⟨0, 8.5, -83⟩ < Resp.ALERT_RADIUS
    rw [hdist]
    norm_num [Resp.ALERT_RADIUS]
  have hlenOK : ((Vec3.sub (⟨0, 8.5, -83⟩ : Vec3)
      (⟨⟨0, 8.5, -70⟩, ⟨1.2, 0, 0⟩, 0, 10, 0, Resp.Mode.wander, false, 0, 1, -10, 0⟩ :
        Resp.Chicken).position).setY 0).lengthSq > 0.0001 := by
    show ((Vec3.sub (⟨0, 8.5, -83⟩ : Vec3) ⟨0, 8.5, -70⟩).setY 0).lengthSq > 0.0001
    norm_num [Vec3.sub, Vec3.setY, Vec3.lengthSq]
  have hout : (Resp.updateChicken ⟨0, 0, 0, 0, 0, 0, 0, 0⟩ 0 0.1 ⟨0, 8.5, -83⟩
      ⟨[], 0, false⟩
      ⟨⟨0, 8.5, -70⟩, ⟨1.2, 0, 0⟩, 0, 10, 0, Resp.Mode.wander, false, 0, 1, -10,
        0⟩).chicken =
      (Resp.moveChicken ⟨0, 0, 0, 0, 0, 0, 0, 0⟩ 0 0.1 ⟨0, 8.5, -83⟩
        ⟨⟨0, 8.5, -70⟩, ⟨1.2, 0, 0⟩, 0, 10, 0, Resp.Mode.wander, false, 0, 1, -10,
          0⟩).1 := by
    rw [Resp.updateChicken_nofire _ _ _ _ _ _ (by decide) (by decide) (by simp) (by simp)]
  have hsub : (Vec3.sub (⟨0, 8.5, -83⟩ : Vec3) ⟨0, 8.5, -70⟩).setY 0 =
      (⟨0, 0, -13⟩ : Vec3) := by
    simp [Vec3.sub, Vec3.setY]
    norm_num
  have hlen13 : Vec3.length (⟨0, 0, -13⟩ : Vec3) = 13 :=
    length_eval _ 13 (by norm_num) (by norm_num)
  have hnorm : Vec3.normalize (⟨0, 0, -13⟩ : Vec3) = ⟨0, 0, -1⟩ := by
    unfold Vec3.normalize
    rw [hlen13]
    norm_num [Vec3.smul]
  have hvel : (Resp.moveChicken ⟨0, 0, 0, 0, 0, 0, 0, 0⟩ 0 0.1 ⟨0, 8.5, -83⟩
      ⟨⟨0, 8.5, -70⟩, ⟨1.2, 0, 0⟩, 0, 10, 0, Resp.Mode.wander, false, 0, 1, -10,
        0⟩).1.velocity = ⟨1.056, 0, -0.264⟩ := by
    rw [Resp.moveChicken_alert_velocity _ _ _ _ _ halert hlenOK]
    rw [show ((Vec3.sub (⟨0, 8.5, -83⟩ : Vec3)
        (⟨⟨0, 8.5, -70⟩, ⟨1.2, 0, 0⟩, 0, 10, 0, Resp.Mode.wander, false, 0, 1, -10, 0⟩ :
          Resp.Chicken).position).setY 0) =
      (Vec3.sub (⟨0, 8.5, -83⟩ : Vec3) ⟨0, 8.5, -70⟩).setY 0 from rfl]
    rw [hsub, hnorm]
    simp [Vec3.lerp, Vec3.smul, Vec3.add, Vec3.sub, Resp.CHASE_SPEED]
    norm_num
  refine ⟨?_, ?_, ?_⟩
  · rw [hdist]
    norm_num [Resp.ALERT_RADIUS]
  · rw [hout, Resp.moveChicken_mode_field]
    rw [decide_eq_true halert]
    simp
  · intro k hk
    rw [hout, hvel] at hk
    have hx := congrArg Vec3.x hk
    simp [Vec3.smul, Vec3.sub] at hx
    norm_num at hx

/-- Claim C8 (amended): for a creature not Captured or Respawning, on a frame
whose fire tests do not fire, the update sets alert to true exactly when the
(pre-move) distance to the player is below `alertRadius`, sets mode to Chase
exactly when alert (Wander otherwise); and when alert it smooths the velocity
12% toward a target velocity directed at the player (a positive multiple of
the flattened player-ward vector) — the velocity itself is the smoothed
blend, not a vector pointing at the player (see the counterexample). -/
theorem claim8_alert_chase_amended (r : Resp.Draws) (time delta : ℝ) (p : Vec3)
    (fire : FireState) (c : Resp.Chicken)
    (h1 : c.mode ≠ Resp.Mode.drumstick) (h2 : c.mode ≠ Resp.Mode.respawn)
    (hfoot : ¬(fire.fireActive = true ∧ Resp.footFireHit p c.position))
    (hcen : ¬(fire.fireActive = true ∧
      Resp.fireCenterHit fire (Resp.moveChicken r time delta p c).1.position))
    (hlen : ((Vec3.sub p c.position).setY 0).lengthSq > 0.0001) :
    ((Resp.updateChicken r time delta p fire c).chicken.alert = true ↔
      Vec3.distanceTo c.position p < Resp.ALERT_RADIUS) ∧
    ((Resp.updateChicken r time delta p fire c).chicken.mode = Resp.Mode.chase ↔
      (Resp.updateChicken r time delta p fire c).chicken.alert = true) ∧
    ((Resp.updateChicken r time delta p fire c).chicken.mode = Resp.Mode.wander ↔
      (Resp.updateChicken r time delta p fire c).chicken.alert = false) ∧
    (Vec3.distanceTo c.position p < Resp.ALERT_RADIUS →
      ∃ k : ℝ, 0 < k ∧
        (Resp.updateChicken r time delta p fire c).chicken.velocity =
          Vec3.lerp c.velocity (Vec3.smul k ((Vec3.sub p c.position).setY 0)) 0.12) := by
  have hout : (Resp.updateChicken r time delta p fire c).chicken =
      (Resp.moveChicken r time delta p c).1 := by
    rw [Resp.updateChicken_nofire r time delta p fire c h1 h2 hfoot hcen]
  refine ⟨?_, ?_, ?_, ?_⟩
  · rw [hout, Resp.moveChicken_alert_field]
    exact decide_eq_true_iff
  · rw [hout, Resp.moveChicken_mode_field, Resp.moveChicken_alert_field]
    cases hval : decide (Vec3.distanceTo c.position p < Resp.ALERT_RADIUS) <;> simp
  · rw [hout, Resp.moveChicken_mode_field, Resp.moveChicken_alert_field]
    cases hval : decide (Vec3.distanceTo c.position p < Resp.ALERT_RADIUS) <;> simp
  · intro halert
    have hpos : 0 < Vec3.length ((Vec3.sub p c.position).setY 0) :=
      Vec3.length_pos_of_lengthSq hlen
    refine ⟨Resp.CHASE_SPEED * (1 / Vec3.length ((Vec3.sub p c.position).setY 0)),
      ?_, ?_⟩
    · have hinv : 0 < 1 / Vec3.length ((Vec3.sub p c.position).setY 0) := by positivity
      have hcs : (0 : ℝ) < Resp.CHASE_SPEED := by norm_num [Resp.CHASE_SPEED]
      exact mul_pos hcs hinv
    · rw [hout, Resp.moveChicken_alert_velocity r time delta p c halert hlen,
        Vec3.normalize, Vec3.smul_smul]

/-- Witness for claim C8 (amended): the theorem instantiated at the chase
scenario of the counterexample (distance `alertRadius - 1`, inactive fire). -/
theorem claim8_witness :
    ((Resp.updateChicken ⟨0, 0, 0, 0, 0, 0, 0, 0⟩ 0 0.1 ⟨0, 8.5, -83⟩ ⟨[], 0, false⟩
        ⟨⟨0, 8.5, -70⟩, ⟨1.2, 0, 0⟩, 0, 10, 0, Resp.Mode.wander, false, 0, 1, -10,
          0⟩).chicken.alert = true ↔
      Vec3.distanceTo
        (⟨⟨0, 8.5, -70⟩, ⟨1.2, 0, 0⟩, 0, 10, 0, Resp.Mode.wander, false, 0, 1, -10, 0⟩ :
          Resp.Chicken).position ⟨0, 8.5, -83⟩ < Resp.ALERT_RADIUS) ∧
    ((Resp.updateChicken ⟨0, 0, 0, 0, 0, 0, 0, 0⟩ 0 0.1 ⟨0, 8.5, -83⟩ ⟨[], 0, false⟩
        ⟨⟨0, 8.5, -70⟩, ⟨1.2, 0, 0⟩, 0, 10, 0, Resp.Mode.wander, false, 0, 1, -10,
          0⟩).chicken.mode = Resp.Mode.chase ↔
      (Resp.updateChicken ⟨0, 0, 0, 0, 0, 0, 0, 0⟩ 0 0.1 ⟨0, 8.5, -83⟩ ⟨[], 0, false⟩
        ⟨⟨0, 8.5, -70⟩, ⟨1.2, 0, 0⟩, 0, 10, 0, Resp.Mode.wander, false, 0, 1, -10,
          0⟩).chicken.alert = true) ∧
    ((Resp.updateChicken ⟨0, 0, 0, 0, 0, 0, 0, 0⟩ 0 0.1 ⟨0, 8.5, -83⟩ ⟨[], 0, false⟩
        ⟨⟨0, 8.5, -70⟩, ⟨1.2, 0, 0⟩, 0, 10, 0, Resp.Mode.wander, false, 0, 1, -10,
          0⟩).chicken.mode = Resp.Mode.wander ↔
      (Resp.updateChicken ⟨0, 0, 0, 0, 0, 0, 0, 0⟩ 0 0.1 ⟨0, 8.5, -83⟩ ⟨[], 0, false⟩
        ⟨⟨0, 8.5, -70⟩, ⟨1.2, 0, 0⟩, 0, 10, 0, Resp.Mode.wander, false, 0, 1, -10,
          0⟩).chicken.alert = false) ∧
    (Vec3.distanceTo
        (⟨⟨0, 8.5, -70⟩, ⟨1.2, 0, 0⟩, 0, 10, 0, Resp.Mode.wander, false, 0, 1, -10, 0⟩ :
          Resp.Chicken).position ⟨0, 8.5, -83⟩ < Resp.ALERT_RADIUS →
      ∃ k : ℝ, 0 < k ∧
        (Resp.updateChicken ⟨0, 0, 0, 0, 0, 0, 0, 0⟩ 0 0.1 ⟨0, 8.5, -83⟩ ⟨[], 0, false⟩
            ⟨⟨0, 8.5, -70⟩, ⟨1.2, 0, 0⟩, 0, 10, 0, Resp.Mode.wander, false, 0, 1, -10,
              0⟩).chicken.velocity =
          Vec3.lerp (⟨1.2, 0, 0⟩ : Vec3)
            (Vec3.smul k ((Vec3.sub (⟨0, 8.5, -83⟩ : Vec3)
              (⟨⟨0, 8.5, -70⟩, ⟨1.2, 0, 0⟩, 0, 10, 0, Resp.Mode.wander, false, 0, 1, -10,
                0⟩ : Resp.Chicken).position).setY 0)) 0.12) :=
  claim8_alert_chase_amended ⟨0, 0, 0, 0, 0, 0, 0, 0⟩ 0 0.1 ⟨0, 8.5, -83⟩ ⟨[], 0, false⟩
    ⟨⟨0, 8.5, -70⟩, ⟨1.2, 0, 0⟩, 0, 10, 0, Resp.Mode.wander, false, 0, 1, -10, 0⟩
    (by decide) (by decide) (by simp) (by simp)
    (by
      show ((Vec3.sub (⟨0, 8.5, -83⟩ : Vec3) ⟨0, 8.5, -70⟩).setY 0).lengthSq > 0.0001
      norm_num [Vec3.sub, Vec3.setY, Vec3.lengthSq])

/-- Counterexample for claim C5: in the replace-and-grow engine, after all
five creatures are captured at time 0 and never picked up (the player stays
1000 units away), the non-captured population is still 0 — not the target
count of 5 — after four one-second frames, i.e. well past
`RESPAWN_DELAY + one frame`: uncollected drumsticks still count as live, so
the replenish timer never starts. -/
theorem claim5_counterexample :
    Grow.nonCapturedCount (List.replicate 5
      (⟨⟨0, 8.5, -70⟩, Vec3.zero, 0, 10, 0, Grow.Mode.drumstick, false, 0, 1, false⟩ :
        Grow.Chick)) = 0 ∧
    Grow.nonCapturedCount
      (Grow.runEngine (fun _ => ⟨0, 0, 0, 0, 0, 0, 0⟩) ⟨0, 0, 0, 0, 0, 0, 0⟩
        (some ⟨1000, 8.5, -70⟩) ⟨[], 0, false⟩ [(1, 1), (2, 1), (3, 1), (4, 1)]
        ⟨List.replicate 5 ⟨⟨0, 8.5, -70⟩, Vec3.zero, 0, 10, 0, Grow.Mode.drumstick, false,
          0, 1, false⟩, 0, 0, [], ⟨1000, 8.5, -70⟩⟩).chicks = 0 ∧
    (0 : ℕ) ≠ Grow.CHICKEN_COUNT ∧
    Grow.RESPAWN_DELAY + 1 ≤ sumDeltas [((1 : ℝ), (1 : ℝ)), (2, 1), (3, 1), (4, 1)] := by
  have hm0 : max (0 : ℝ) (1 - 0 / Grow.DRUMSTICK_DURATION) = 1 := by
    rw [max_eq_right] <;> norm_num [Grow.DRUMSTICK_DURATION]
  refine ⟨?_, ?_, ?_, ?_⟩
  · simp [Grow.nonCapturedCount, List.replicate_succ]
  · rw [show (⟨⟨0, 8.5, -70⟩, Vec3.zero, 0, 10, 0, Grow.Mode.drumstick, false, 0, 1,
        false⟩ : Grow.Chick) =
      ⟨⟨0, 8.5, -70⟩, Vec3.zero, 0, 10, 0, Grow.Mode.drumstick, false, 0,
        max 0 (1 - 0 / Grow.DRUMSTICK_DURATION), false⟩ from by rw [hm0]]
    simp only [Grow.runEngine]
    rw [Grow.captured_far_frame 1 0 1 (some ⟨1000, 8.5, -70⟩) (Or.inr rfl) (by norm_num)]
    dsimp only
    rw [Grow.captured_far_frame 2 1 2 (some ⟨1000, 8.5, -70⟩) (Or.inr rfl) (by norm_num)]
    dsimp only
    rw [Grow.captured_far_frame 3 2 3 (some ⟨1000, 8.5, -70⟩) (Or.inr rfl) (by norm_num)]
    dsimp only
    rw [Grow.captured_far_frame 4 3 4 (some ⟨1000, 8.5, -70⟩) (Or.inr rfl) (by norm_num)]
    simp [Grow.nonCapturedCount, List.replicate_succ]
  · norm_num [Grow.CHICKEN_COUNT]
  · norm_num [sumDeltas, Grow.RESPAWN_DELAY]

/-- Claim C5 (amended): the replenish mechanism of the replace-and-grow
engine repairs only deficits in the live count (where an uncollected
drumstick still counts as live): while the live count is below the target
and the accumulated frame deltas stay below `RESPAWN_DELAY` the roster is
unchanged and the timer holds the running total, the first frame that pushes
the total to `RESPAWN_DELAY` or beyond appends exactly one fresh creature,
and the live count never exceeds the target count. -/
theorem claim5_population_amended (rs : ℕ → Grow.Draws) (rNew : Grow.Draws)
    (player : Option Vec3) (fire : FireState) (frames : List (ℝ × ℝ))
    (st : Grow.EngineState)
    (hlive : Grow.liveCount st.chicks < Grow.CHICKEN_COUNT)
    (ht : st.respawnTimer = 0) (hd : ∀ f ∈ frames, 0 ≤ f.2) :
    (sumDeltas frames < Grow.RESPAWN_DELAY →
      (Grow.runEngine rs rNew player fire frames st).chicks.length = st.chicks.length ∧
      (Grow.runEngine rs rNew player fire frames st).respawnTimer = sumDeltas frames) ∧
    (∀ t d : ℝ, sumDeltas frames < Grow.RESPAWN_DELAY →
      Grow.RESPAWN_DELAY ≤ sumDeltas frames + d →
      (Grow.runEngine rs rNew player fire (frames ++ [(t, d)]) st).chicks.length =
        st.chicks.length + 1) ∧
    (∀ (time delta : ℝ) (st2 : Grow.EngineState),
      Grow.liveCount st2.chicks ≤ Grow.CHICKEN_COUNT →
      Grow.liveCount (Grow.frameEngine rs rNew time delta player fire st2).state.chicks ≤
        Grow.CHICKEN_COUNT) := by
  refine ⟨?_, ?_, ?_⟩
  · intro hs
    have h := Grow.replenish_accumulate rs rNew player fire frames st hlive hd
      (by rw [ht]; linarith)
    exact ⟨h.1, by rw [h.2.1, ht]; ring⟩
  · intro t d hs hcross
    have h := Grow.replenish_accumulate rs rNew player fire frames st hlive hd
      (by rw [ht]; linarith)
    rw [Grow.runEngine_append]
    rw [show Grow.runEngine rs rNew player fire [(t, d)]
        (Grow.runEngine rs rNew player fire frames st) =
      (Grow.frameEngine rs rNew t d player fire
        (Grow.runEngine rs rNew player fire frames st)).state from rfl]
    have hpush := Grow.frame_push rs rNew t d player fire
      (Grow.runEngine rs rNew player fire frames st) h.2.2
      (by rw [h.2.1, ht]; simp only [ge_iff_le]; linarith)
    rw [hpush.2, h.1]
  · intro time delta st2 h5
    exact Grow.frame_live_le rs rNew time delta player fire st2 h5

/-- Witness for claim C5 (amended): the theorem instantiated at an engine
state with an empty roster (live count 0), no frames, and then one frame of
delta exactly `RESPAWN_DELAY`. -/
theorem claim5_witness :
    ((sumDeltas [] < Grow.RESPAWN_DELAY →
      (Grow.runEngine (fun _ => ⟨0, 0, 0, 0, 0, 0, 0⟩) ⟨0, 0, 0, 0, 0, 0, 0⟩ none
          ⟨[], 0, false⟩ [] ⟨[], 0, 0, [], ⟨0, 0, 0⟩⟩).chicks.length =
        (⟨[], 0, 0, [], ⟨0, 0, 0⟩⟩ : Grow.EngineState).chicks.length ∧
      (Grow.runEngine (fun _ => ⟨0, 0, 0, 0, 0, 0, 0⟩) ⟨0, 0, 0, 0, 0, 0, 0⟩ none
          ⟨[], 0, false⟩ [] ⟨[], 0, 0, [], ⟨0, 0, 0⟩⟩).respawnTimer = sumDeltas []) ∧
    (∀ t d : ℝ, sumDeltas [] < Grow.RESPAWN_DELAY →
      Grow.RESPAWN_DELAY ≤ sumDeltas [] + d →
      (Grow.runEngine (fun _ => ⟨0, 0, 0, 0, 0, 0, 0⟩) ⟨0, 0, 0, 0, 0, 0, 0⟩ none
          ⟨[], 0, false⟩ ([] ++ [(t, d)]) ⟨[], 0, 0, [], ⟨0, 0, 0⟩⟩).chicks.length =
        (⟨[], 0, 0, [], ⟨0, 0, 0⟩⟩ : Grow.EngineState).chicks.length + 1) ∧
    (∀ (time delta : ℝ) (st2 : Grow.EngineState),
      Grow.liveCount st2.chicks ≤ Grow.CHICKEN_COUNT →
      Grow.liveCount ((Grow.frameEngine (fun _ => ⟨0, 0, 0, 0, 0, 0, 0⟩)
          ⟨0, 0, 0, 0, 0, 0, 0⟩ time delta none ⟨[], 0, false⟩ st2).state.chicks) ≤
        Grow.CHICKEN_COUNT)) :=
  claim5_population_amended (fun _ => ⟨0, 0, 0, 0, 0, 0, 0⟩) ⟨0, 0, 0, 0, 0, 0, 0⟩ none
    ⟨[], 0, false⟩ [] ⟨[], 0, 0, [], ⟨0, 0, 0⟩⟩
    (by simp [Grow.liveCount, Grow.CHICKEN_COUNT]) rfl (by simp)

/-- Counterexample for claim C9: when the player group is missing for a
frame, the replace-and-grow engine does not skip the frame — it keeps
mutating state using the last stored player position: with the player
reference absent, every fading drumstick's timer still advances, so the
engine state after the frame differs from the state before it. -/
theorem claim9_counterexample :
    ((Grow.frameEngine (fun _ => ⟨0, 0, 0, 0, 0, 0, 0⟩) ⟨0, 0, 0, 0, 0, 0, 0⟩ 0 1 none
        ⟨[], 0, false⟩
        ⟨List.replicate 5 ⟨⟨0, 8.5, -70⟩, Vec3.zero, 0, 10, 0, Grow.Mode.drumstick, false,
          0, 1, false⟩, 0, 0, [], ⟨1000, 8.5, -70⟩⟩).state.chicks.map
      fun c => c.drumTime) = [1, 1, 1, 1, 1] ∧
    ((⟨List.replicate 5 ⟨⟨0, 8.5, -70⟩, Vec3.zero, 0, 10, 0, Grow.Mode.drumstick, false,
        0, 1, false⟩, 0, 0, [], ⟨1000, 8.5, -70⟩⟩ : Grow.EngineState).chicks.map
      fun c => c.drumTime) = [0, 0, 0, 0, 0] ∧
    (Grow.frameEngine (fun _ => ⟨0, 0, 0, 0, 0, 0, 0⟩) ⟨0, 0, 0, 0, 0, 0, 0⟩ 0 1 none
        ⟨[], 0, false⟩
        ⟨List.replicate 5 ⟨⟨0, 8.5, -70⟩, Vec3.zero, 0, 10, 0, Grow.Mode.drumstick, false,
          0, 1, false⟩, 0, 0, [], ⟨1000, 8.5, -70⟩⟩).state ≠
      ⟨List.replicate 5 ⟨⟨0, 8.5, -70⟩, Vec3.zero, 0, 10, 0, Grow.Mode.drumstick, false,
        0, 1, false⟩, 0, 0, [], ⟨1000, 8.5, -70⟩⟩ := by
  have hm0 : max (0 : ℝ) (1 - 0 / Grow.DRUMSTICK_DURATION) = 1 := by
    rw [max_eq_right] <;> norm_num [Grow.DRUMSTICK_DURATION]
  have hlit : (⟨⟨0, 8.5, -70⟩, Vec3.zero, 0, 10, 0, Grow.Mode.drumstick, false, 0, 1,
      false⟩ : Grow.Chick) =
      ⟨⟨0, 8.5, -70⟩, Vec3.zero, 0, 10, 0, Grow.Mode.drumstick, false, 0,
        max 0 (1 - 0 / Grow.DRUMSTICK_DURATION), false⟩ := by rw [hm0]
  refine ⟨?_, ?_, ?_⟩
  · rw [hlit, Grow.captured_far_frame 0 0 1 none (Or.inl rfl) (by norm_num)]
    simp [List.replicate_succ]
  · simp [List.replicate_succ]
  · rw [hlit, Grow.captured_far_frame 0 0 1 none (Or.inl rfl) (by norm_num)]
    dsimp only
    intro h
    simp only [Grow.EngineState.mk.injEq, List.replicate_succ, List.cons.injEq,
      Grow.Chick.mk.injEq] at h
    have h1 : (1 : ℝ) = 0 := h.1.1.2.2.2.2.2.2.2.1
    norm_num at h1

/-- Claim C9 (amended): the respawn-variant creature engine and the player
controller skip the whole frame (no state mutation, fire state untouched, no
trigger callbacks) when their required reference is missing; the
replace-and-grow engine instead continues its update using the last stored
player position (see the counterexample for the resulting mutation). -/
theorem claim9_missing_ref_amended :
    (∀ (rs : ℕ → Resp.Draws) (time delta : ℝ) (fire : FireState)
      (cs : List Resp.Chicken),
      Resp.frameChickens rs time delta none fire cs = cs) ∧
    (∀ (isLocked : Bool) (moveForward moveTurn : ℝ) (firing : Bool) (mouth fwd : Vec3)
      (prevFire : FireState) (st : Player.State),
      (Player.updateFrame false isLocked moveForward moveTurn firing mouth fwd prevFire
          st).player = st ∧
      (Player.updateFrame false isLocked moveForward moveTurn firing mouth fwd prevFire
          st).fire = prevFire ∧
      (Player.updateFrame false isLocked moveForward moveTurn firing mouth fwd prevFire
          st).triggers = []) ∧
    (∀ (rs : ℕ → Grow.Draws) (rNew : Grow.Draws) (time delta : ℝ) (fire : FireState)
      (st : Grow.EngineState),
      Grow.frameEngine rs rNew time delta none fire st =
        Grow.frameEngine rs rNew time delta (some st.playerPos) fire st) := by
  refine ⟨?_, ?_, ?_⟩
  · intro rs time delta fire cs
    rfl
  · intro isLocked moveForward moveTurn firing mouth fwd prevFire st
    refine ⟨?_, ?_, ?_⟩ <;> simp [Player.updateFrame]
  · intro rs rNew time delta fire st
    rfl

/-- Claim C10: no frame of either creature engine ever removes an element
from the roster: a replace-and-grow frame keeps the length or appends exactly
one fresh chick (so the length is monotone over any run), while the
respawn-variant roster keeps its exact length every frame, and both initial
rosters have length `CHICKEN_COUNT` — so the fixed-roster variant stays at
exactly `CHICKEN_COUNT` for the whole session. -/
theorem claim10_roster_never_shrinks :
    (∀ (rs : ℕ → Grow.Draws) (rNew : Grow.Draws) (time delta : ℝ)
      (player : Option Vec3) (fire : FireState) (st : Grow.EngineState),
      (Grow.frameEngine rs rNew time delta player fire st).state.chicks.length =
        st.chicks.length ∨
      (Grow.frameEngine rs rNew time delta player fire st).state.chicks.length =
        st.chicks.length + 1) ∧
    (∀ (rs : ℕ → Grow.Draws) (rNew : Grow.Draws) (player : Option Vec3)
      (fire : FireState) (frames : List (ℝ × ℝ)) (st : Grow.EngineState),
      st.chicks.length ≤ (Grow.runEngine rs rNew player fire frames st).chicks.length) ∧
    (∀ rs : ℕ → Grow.Draws, (Grow.createInitialChicks rs).length = Grow.CHICKEN_COUNT) ∧
    (∀ (rs : ℕ → Resp.Draws) (time delta : ℝ) (player : Option Vec3) (fire : FireState)
      (cs : List Resp.Chicken),
      (Resp.frameChickens rs time delta player fire cs).length = cs.length) ∧
    (∀ (rs : ℕ → Resp.Draws) (player : Option Vec3) (fire : FireState)
      (frames : List (ℝ × ℝ)) (cs : List Resp.Chicken),
      (Resp.runFrames rs player fire frames cs).length = cs.length) ∧
    (∀ rsI : ℕ → Resp.InitDraws,
      (Resp.createInitialChickens rsI).length = Resp.CHICKEN_COUNT) := by
  have hframe : ∀ (rs : ℕ → Grow.Draws) (rNew : Grow.Draws) (time delta : ℝ)
      (player : Option Vec3) (fire : FireState) (st : Grow.EngineState),
      (Grow.frameEngine rs rNew time delta player fire st).state.chicks.length =
        st.chicks.length ∨
      (Grow.frameEngine rs rNew time delta player fire st).state.chicks.length =
        st.chicks.length + 1 := by
    intro rs rNew time delta player fire st
    by_cases hp : Grow.liveCount st.chicks < Grow.CHICKEN_COUNT ∧
        st.respawnTimer + delta ≥ Grow.RESPAWN_DELAY
    · right
      simp only [Grow.frameEngine]
      rw [if_pos hp]
      simp
    · left
      simp only [Grow.frameEngine]
      rw [if_neg hp]
      simp
  have hrespFrame : ∀ (rs : ℕ → Resp.Draws) (time delta : ℝ) (player : Option Vec3)
      (fire : FireState) (cs : List Resp.Chicken),
      (Resp.frameChickens rs time delta player fire cs).length = cs.length := by
    intro rs time delta player fire cs
    cases player <;> simp [Resp.frameChickens]
  refine ⟨hframe, ?_, ?_, hrespFrame, ?_, ?_⟩
  · intro rs rNew player fire frames
    induction frames with
    | nil => intro st; exact le_refl _
    | cons f rest ih =>
      intro st
      refine le_trans ?_ (ih (Grow.frameEngine rs rNew f.1 f.2 player fire st).state)
      rcases hframe rs rNew f.1 f.2 player fire st with h | h <;> omega
  · intro rs
    simp [Grow.createInitialChicks, Grow.CHICKEN_COUNT]
  · intro rs player fire frames
    induction frames with
    | nil => intro cs; rfl
    | cons f rest ih =>
      intro cs
      rw [show Resp.runFrames rs player fire (f :: rest) cs =
        Resp.runFrames rs player fire rest
          (Resp.frameChickens rs f.1 f.2 player fire cs) from rfl]
      rw [ih, hrespFrame]
  · intro rsI
    simp [Resp.createInitialChickens, Resp.CHICKEN_COUNT]

/-- Counterexample for claim C6: the replace-and-grow variant has no hit
cooldown — a creature sitting on the player emits `onPlayerHit` on two
consecutive frames whose clocks are 0.1 s apart, less than the 0.3 s
cooldown the other variants enforce. -/
theorem claim6_counterexample :
    (Grow.stepChick ⟨0, 0, 0, 0, 0, 0, 0⟩ 10 0.1 ⟨0, 8.5, -70⟩ ⟨[], 0, false⟩
        ⟨⟨0, 8.5, -70⟩, ⟨0, 0, 0⟩, 0, 10, -50, Grow.Mode.wander, false, 0, 1,
          false⟩).hitPlayer = true ∧
    (Grow.stepChick ⟨0, 0, 0, 0, 0, 0, 0⟩ 10.1 0.1 ⟨0, 8.5, -70⟩ ⟨[], 0, false⟩
        (Grow.stepChick ⟨0, 0, 0, 0, 0, 0, 0⟩ 10 0.1 ⟨0, 8.5, -70⟩ ⟨[], 0, false⟩
          ⟨⟨0, 8.5, -70⟩, ⟨0, 0, 0⟩, 0, 10, -50, Grow.Mode.wander, false, 0, 1,
            false⟩).chick).hitPlayer = true ∧
    (10.1 : ℝ) - 10 < 0.3 := by
  have hd0 : Vec3.distanceTo (⟨0, 8.5, -70⟩ : Vec3) ⟨0, 8.5, -70⟩ = 0 :=
    Vec3.distanceTo_self _
  have h1 : Grow.stepChick ⟨0, 0, 0, 0, 0, 0, 0⟩ 10 0.1 ⟨0, 8.5, -70⟩ ⟨[], 0, false⟩
      ⟨⟨0, 8.5, -70⟩, ⟨0, 0, 0⟩, 0, 10, -50, Grow.Mode.wander, false, 0, 1, false⟩ =
      ⟨⟨⟨0, 8.5, -70⟩, ⟨0, 0, 0⟩, 0, 9.9, -50, Grow.Mode.chase, true, 0, 1, false⟩,
        true, false⟩ := by
    norm_num [Grow.stepChick, Vec3.distanceTo_self, decide_eq_true_eq, Vec3.sub,
      Vec3.setY, Vec3.lengthSq,
      Vec3.lerp, Vec3.smul, Vec3.add, Vec3.addScaledVector, Vec3.zero, clamp,
      Grow.ALERT_RADIUS, Grow.HIT_RADIUS, Grow.CHASE_SPEED, Grow.WANDER_SPEED,
      Grow.BASE_HEIGHT, Grow.HOP_SPEED, Grow.HOP_HEIGHT, Grow.AREA_X, Grow.AREA_Z_MIN,
      Grow.AREA_Z_MAX]
    rw [if_neg (show ¬(Grow.Mode.wander = Grow.Mode.drumstick) by decide)]
    norm_num [Vec3.distanceTo_self, decide_eq_true_eq, Grow.HIT_RADIUS]
    decide
  refine ⟨?_, ?_, ?_⟩
  · rw [h1]
  · rw [h1]
    rw [show (⟨⟨⟨0, 8.5, -70⟩, ⟨0, 0, 0⟩, 0, 9.9, -50, Grow.Mode.chase, true, 0, 1,
        false⟩, true, false⟩ : Grow.StepOut).chick =
      ⟨⟨0, 8.5, -70⟩, ⟨0, 0, 0⟩, 0, 9.9, -50, Grow.Mode.chase, true, 0, 1, false⟩
      from rfl]
    rw [Grow.stepChick_hit_char]
    rw [if_neg (by decide)]
    rw [show Vec3.distanceTo (⟨0, 8.5, -70⟩ : Vec3)
      (⟨⟨0, 8.5, -70⟩, ⟨0, 0, 0⟩, 0, 9.9, -50, Grow.Mode.chase, true, 0, 1,
        false⟩ : Grow.Chick).pos =
      Vec3.distanceTo (⟨0, 8.5, -70⟩ : Vec3) ⟨0, 8.5, -70⟩ from rfl]
    simp only [hd0]
    rw [decide_eq_true_eq]
    norm_num [Grow.HIT_RADIUS]
  · norm_num

/-- Claim C6 (amended): in the respawn variant (the same check as
Chickens.tsx), over any run in which the creature never reaches the
Respawning reinitialisation (which resets the timestamp), any two
consecutive `onPlayerHit` emissions by the same creature are separated by
strictly more than the 0.3 s cooldown — each emission requires
`clock - lastPlayerHit > 0.3` and stamps `lastPlayerHit` with the clock.
The replace-and-grow variant has no such cooldown (see the
counterexample). -/
theorem claim6_hit_cooldown_amended (r : Resp.Draws) (p : Vec3) (fire : FireState)
    (frames : List (ℝ × ℝ)) (c : Resp.Chicken)
    (hnr : Resp.neverRespawning r p fire frames c) :
    List.Chain (fun t1 t2 => t1 + 0.3 < t2) c.lastPlayerHit
      (Resp.chickenHitTimes r p fire frames c) ∧
    List.Chain' (fun t1 t2 => t1 + 0.3 < t2) (Resp.chickenHitTimes r p fire frames c) := by
  have main : ∀ (fs : List (ℝ × ℝ)) (c0 : Resp.Chicken),
      Resp.neverRespawning r p fire fs c0 →
      List.Chain (fun t1 t2 => t1 + 0.3 < t2) c0.lastPlayerHit
        (Resp.chickenHitTimes r p fire fs c0) := by
    intro fs
    induction fs with
    | nil =>
      intro c0 _
      exact List.Chain.nil
    | cons f rest ih =>
      intro c0 hnr0
      obtain ⟨hmode, hnr2⟩ := hnr0
      have hfacts := Resp.hit_step_facts r f.1 f.2 p fire c0 hmode
      have hih := ih (Resp.updateChicken r f.1 f.2 p fire c0).chicken hnr2
      rw [show Resp.chickenHitTimes r p fire (f :: rest) c0 =
        (if (Resp.updateChicken r f.1 f.2 p fire c0).hitPlayer = true then [f.1] else []) ++
          Resp.chickenHitTimes r p fire rest
            (Resp.updateChicken r f.1 f.2 p fire c0).chicken from rfl]
      cases hu : (Resp.updateChicken r f.1 f.2 p fire c0).hitPlayer
      · rw [if_neg (by simp [hu]), List.nil_append]
        rw [(hfacts.2 hu)] at hih
        exact hih
      · rw [if_pos rfl, List.singleton_append]
        refine List.Chain.cons ?_ ?_
        · have hgap := (hfacts.1 hu).1
          linarith
        · rw [(hfacts.1 hu).2] at hih
          exact hih
  refine ⟨main frames c hnr, chain_imp_chain _ c.lastPlayerHit _ (main frames c hnr)⟩

/-- Witness for claim C6 (amended): a single frame in which a wandering
creature standing on the player emits a hit. -/
theorem claim6_witness :
    List.Chain (fun t1 t2 => t1 + 0.3 < t2)
      (⟨⟨0, 8.5, -70⟩, Vec3.zero, 0, 10, 0, Resp.Mode.wander, false, 0, 1, -10,
        0⟩ : Resp.Chicken).lastPlayerHit
      (Resp.chickenHitTimes ⟨0, 0, 0, 0, 0, 0, 0, 0⟩ ⟨0, 8.5, -70⟩ ⟨[], 0, false⟩
        [(10, 0.1)]
        ⟨⟨0, 8.5, -70⟩, Vec3.zero, 0, 10, 0, Resp.Mode.wander, false, 0, 1, -10, 0⟩) ∧
    List.Chain' (fun t1 t2 => t1 + 0.3 < t2)
      (Resp.chickenHitTimes ⟨0, 0, 0, 0, 0, 0, 0, 0⟩ ⟨0, 8.5, -70⟩ ⟨[], 0, false⟩
        [(10, 0.1)]
        ⟨⟨0, 8.5, -70⟩, Vec3.zero, 0, 10, 0, Resp.Mode.wander, false, 0, 1, -10, 0⟩) :=
  claim6_hit_cooldown_amended ⟨0, 0, 0, 0, 0, 0, 0, 0⟩ ⟨0, 8.5, -70⟩ ⟨[], 0, false⟩
    [(10, 0.1)]
    ⟨⟨0, 8.5, -70⟩, Vec3.zero, 0, 10, 0, Resp.Mode.wander, false, 0, 1, -10, 0⟩
    ⟨by decide, trivial⟩

end DinoWeb


end
